import Mathlib

/-!
Formal model of the Sky Fury combat-simulation core.

The player aircraft (classes/aircraft.py), the weapon system and its
projectiles (classes/weapons.py), enemies and bosses (classes/enemies.py)
and the level/wave progression (classes/levels.py) are shallowly embedded
over ℚ.  Python floats become rationals, python ints become ℤ or ℕ, and
object fields become structure fields; methods that mutate an object
become functions returning the updated structure.  Transcendental
functions (`math.sin`, `math.cos`, `math.atan2`) and the random number
generator have no exact rational counterpart, so they enter the model as
oracle parameters that theorems quantify over; everything else is
translated literally from the source.  Fields that exist only for
rendering (sprites, surface sizes, fade alphas) are omitted.
-/

/-- 2D vector over ℚ, standing in for `pygame.math.Vector2`. -/
structure Vec2 where
  x : ℚ
  y : ℚ
deriving DecidableEq, Repr

instance : Add Vec2 := ⟨fun a b => ⟨a.x + b.x, a.y + b.y⟩⟩

instance : Sub Vec2 := ⟨fun a b => ⟨a.x - b.x, a.y - b.y⟩⟩

/-- Scalar multiple of a vector (`v * k` on a Vector2). -/
def Vec2.scale (v : Vec2) (k : ℚ) : Vec2 := ⟨v.x * k, v.y * k⟩

/-- Squared euclidean distance.  The source compares `Vector2.length()`
values; since squaring is monotone on nonnegative reals, every strict or
non-strict comparison of lengths in the source is mirrored here by the
same comparison of squared lengths. -/
def dist2 (a b : Vec2) : ℚ := (a.x - b.x) * (a.x - b.x) + (a.y - b.y) * (a.y - b.y)

/-- Module-level constants of classes/aircraft.py. -/
def GRAVITY : ℚ := 3/10

def GROUND_LEVEL : ℚ := 500

def RUNWAY_X_START : ℚ := 50

def RUNWAY_X_END : ℚ := 300

def MIN_TAKEOFF_SPEED : ℚ := 7/2

def MAX_LANDING_SPEED : ℚ := 3

def MAX_LANDING_ANGLE : ℚ := 15

/-- What a homing missile sees of a potential target: the referenced
enemy or boss object's position and active flag as they stand at the
moment of the update call (the source keeps a python reference; a single
update call observes exactly these two fields). -/
structure Target where
  position : Vec2
  active : Bool
deriving DecidableEq, Repr

/-- Bullet (weapons.py).  `velocity` is computed at construction from the
direction angle; `cosDeg`/`sinDeg` abstract `math.cos (math.radians ·)`
and `math.sin (math.radians ·)`. -/
structure Bullet where
  position : Vec2
  angle : ℚ
  speed : ℚ
  damage : ℚ
  active : Bool
  velocity : Vec2
deriving DecidableEq, Repr

/-- Bullet.__init__ (the default speed at every call site is 15). -/
def Bullet.init (cosDeg sinDeg : ℚ → ℚ) (position : Vec2) (direction_angle speed : ℚ) : Bullet :=
  { position := position, angle := direction_angle, speed := speed, damage := 15,
    active := true,
    velocity := ⟨cosDeg direction_angle * speed, -(sinDeg direction_angle) * speed⟩ }

/-- Off-screen test shared by bullets, missiles and enemy projectiles. -/
def offscreen (p : Vec2) : Bool :=
  p.x < -50 || 850 < p.x || p.y < -50 || 650 < p.y

/-- Bullet.update. -/
def Bullet.update (dt : ℚ) (b : Bullet) : Bullet :=
  let b := { b with position := b.position + b.velocity.scale (dt * 60) }
  if offscreen b.position then { b with active := false } else b

/-- HomingMissile (weapons.py).  `target` holds the state of the
referenced enemy/boss object at the start of the current update call. -/
structure HomingMissile where
  position : Vec2
  velocity : Vec2
  angle : ℚ
  target : Option Target
  damage : ℚ
  active : Bool
  lifetime : ℚ
deriving DecidableEq, Repr

/-- HomingMissile.turn_rate (3.0 degrees per frame; constant). -/
def HomingMissile.turn_rate : ℚ := 3

/-- HomingMissile.__init__. -/
def HomingMissile.init (position : Vec2) : HomingMissile :=
  { position := position, velocity := ⟨10, 0⟩, angle := 0, target := none,
    damage := 40, active := true, lifetime := 6 }

/-- The two `while` loops of HomingMissile.update that normalise an angle
difference into [-180, 180]: subtract 360 while the value exceeds 180,
then add 360 while it is below -180.  The ceilings count the number of
loop iterations, so this closed form computes exactly the loop result. -/
def normAngle (d : ℚ) : ℚ :=
  if 180 < d then d - 360 * ((⌈(d - 180) / 360⌉ : ℤ) : ℚ)
  else if d < -180 then d + 360 * ((⌈(-180 - d) / 360⌉ : ℤ) : ℚ)
  else d

/-- HomingMissile._find_nearest_enemy: linear scan keeping the active
target strictly closer than the best so far (`dist < min_dist`, starting
from infinity — modelled by the `Option` accumulator). -/
def HomingMissile.find_nearest_enemy (enemies : List Target) (pos : Vec2) : Option Target :=
  (enemies.foldl (fun acc e =>
      if e.active then
        match acc with
        | none => some (e, dist2 e.position pos)
        | some (n, md) =>
            if dist2 e.position pos < md then some (e, dist2 e.position pos) else some (n, md)
      else acc) none).map Prod.fst

/-- The target-acquisition block of HomingMissile.update: keep the held
target while it is active; otherwise (no target, or a dead one) look up
the nearest active enemy. -/
def HomingMissile.retarget (m : HomingMissile) (enemies : List Target) : HomingMissile :=
  match m.target with
  | some t =>
      if t.active then m
      else { m with target := HomingMissile.find_nearest_enemy enemies m.position }
  | none => { m with target := HomingMissile.find_nearest_enemy enemies m.position }

/-- The homing block of HomingMissile.update: turn toward the (active)
target, snapping when the normalised bearing error is within the turn
rate and otherwise stepping by exactly the turn rate. -/
def HomingMissile.steer (atan2Deg : ℚ → ℚ → ℚ) (m : HomingMissile) : HomingMissile :=
  match m.target with
  | some t =>
      if t.active then
        let d := t.position - m.position
        if 0 < dist2 t.position m.position then
          let target_angle := atan2Deg (-d.y) d.x
          let diff := normAngle (target_angle - m.angle)
          if |diff| < HomingMissile.turn_rate then { m with angle := target_angle }
          else { m with angle := m.angle +
                  (if 0 < diff then HomingMissile.turn_rate else -HomingMissile.turn_rate) }
        else m
      else m
  | none => m

/-- The kinematic tail of HomingMissile.update: recompute the velocity
from the heading at speed 12, advance the position, and deactivate off
screen. -/
def HomingMissile.fly (cosDeg sinDeg : ℚ → ℚ) (m : HomingMissile) (dt : ℚ) : HomingMissile :=
  let v : Vec2 := ⟨cosDeg m.angle * 12, -(sinDeg m.angle) * 12⟩
  let m := { m with velocity := v, position := m.position + v.scale (dt * 60) }
  if offscreen m.position then { m with active := false } else m

/-- HomingMissile.update: age out, re-acquire a target only when there is
none or the held one is inactive, turn toward the (active) target by at
most `turn_rate`, then fly at speed 12 along the current heading and
deactivate off screen.  `atan2Deg x y` abstracts
`math.degrees (math.atan2 x y)`. -/
def HomingMissile.update (atan2Deg : ℚ → ℚ → ℚ) (cosDeg sinDeg : ℚ → ℚ)
    (m : HomingMissile) (dt : ℚ) (enemies : List Target) : HomingMissile :=
  let m := { m with lifetime := m.lifetime - dt }
  if m.lifetime ≤ 0 then { m with active := false }
  else
    HomingMissile.fly cosDeg sinDeg
      (HomingMissile.steer atan2Deg (HomingMissile.retarget m enemies)) dt

/-- PlasmaLaser (weapons.py); the render-only `alpha` field is omitted. -/
structure PlasmaLaser where
  position : Vec2
  charge : ℚ
  angle : ℚ
  damage : ℚ
  width : ℚ
  active : Bool
  lifetime : ℚ
deriving DecidableEq, Repr

/-- PlasmaLaser.__init__. -/
def PlasmaLaser.init (position : Vec2) (charge_level : ℚ) : PlasmaLaser :=
  let charge := min 100 charge_level
  { position := position, charge := charge, angle := 0, damage := charge * (4/5),
    width := 10 + charge * (3/20), active := true, lifetime := 3/5 }

/-- PlasmaLaser.update. -/
def PlasmaLaser.update (dt : ℚ) (l : PlasmaLaser) : PlasmaLaser :=
  let l := { l with lifetime := l.lifetime - dt }
  if l.lifetime ≤ 0 then { l with active := false } else l

/-- PlasmaLaser.get_damage_at_position. -/
def PlasmaLaser.get_damage_at_position (l : PlasmaLaser) (pos : Vec2) : ℚ :=
  if |pos.y - l.position.y| < l.width / 2 ∧ l.position.x < pos.x then l.damage * (1/50)
  else 0

/-- EnemyProjectile (enemies.py). -/
structure EnemyProjectile where
  position : Vec2
  velocity : Vec2
  damage : ℚ
  active : Bool
deriving DecidableEq, Repr

/-- EnemyProjectile.__init__. -/
def EnemyProjectile.init (position velocity : Vec2) : EnemyProjectile :=
  { position := position, velocity := velocity, damage := 8, active := true }

/-- EnemyProjectile.update. -/
def EnemyProjectile.update (dt : ℚ) (p : EnemyProjectile) : EnemyProjectile :=
  let p := { p with position := p.position + p.velocity.scale (dt * 60) }
  if offscreen p.position then { p with active := false } else p

/-- WeaponSystem state (weapons.py): cooldowns, resource pools and the
three live projectile collections. -/
structure WeaponState where
  primary_level : ℕ
  missile_count : ℤ
  max_missiles : ℤ
  laser_charge : ℚ
  max_laser_charge : ℚ
  shield_energy : ℚ
  max_shield_energy : ℚ
  is_charging_laser : Bool
  cd_primary : ℚ
  cd_missile : ℚ
  cd_laser : ℚ
  cd_shield : ℚ
  bullets : List Bullet
  missiles : List HomingMissile
  lasers : List PlasmaLaser
deriving DecidableEq, Repr

/-- The fixed cooldown_times table. -/
def cooldown_time_primary : ℚ := 3/20

def cooldown_time_missile : ℚ := 3/2

def cooldown_time_laser : ℚ := 3

def cooldown_time_shield : ℚ := 8

/-- WeaponSystem.__init__. -/
def WeaponSystem.init : WeaponState :=
  { primary_level := 1, missile_count := 5, max_missiles := 10,
    laser_charge := 0, max_laser_charge := 100,
    shield_energy := 50, max_shield_energy := 100,
    is_charging_laser := false,
    cd_primary := 0, cd_missile := 0, cd_laser := 0, cd_shield := 0,
    bullets := [], missiles := [], lasers := [] }

/-- Player aircraft state (aircraft.py).  The physics coefficients
(max_speed 10, acceleration_rate 0.25, drag 0.97, lift_factor 0.08) are
set once in __init__ and never mutated, so they appear below as
constants; sprite fields are render-only and omitted. -/
structure AircraftState where
  position : Vec2
  velocity : Vec2
  angle : ℚ
  on_ground : Bool
  has_taken_off : Bool
  thrust : ℚ
  flaps : ℚ
  gear_down : Bool
  brakes_active : Bool
  spoilers_active : Bool
  health : ℚ
  max_health : ℚ
  fuel : ℚ
  max_fuel : ℚ
  shield_active : Bool
  shield_duration : ℚ
  score : ℤ
  lives : ℤ
  invulnerable : Bool
  invulnerable_timer : ℚ
deriving DecidableEq, Repr

/-- Aircraft physics constants (instance attributes, never mutated). -/
def Aircraft.max_speed : ℚ := 10

def Aircraft.acceleration_rate : ℚ := 1/4

def Aircraft.drag : ℚ := 97/100

def Aircraft.lift_factor : ℚ := 2/25

/-- Aircraft.__init__. -/
def Aircraft.init : AircraftState :=
  { position := ⟨100, GROUND_LEVEL⟩, velocity := ⟨0, 0⟩, angle := 0,
    on_ground := true, has_taken_off := false, thrust := 0,
    flaps := 0, gear_down := true, brakes_active := false, spoilers_active := false,
    health := 100, max_health := 100, fuel := 100, max_fuel := 100,
    shield_active := false, shield_duration := 0,
    score := 0, lives := 3, invulnerable := false, invulnerable_timer := 0 }

/-- Aircraft.land. -/
def Aircraft.land (s : AircraftState) : AircraftState :=
  { s with on_ground := true,
           velocity := { s.velocity with y := 0 },
           position := { s.position with y := GROUND_LEVEL },
           gear_down := true }

/-- Aircraft.crash. -/
def Aircraft.crash (s : AircraftState) : AircraftState := { s with health := 0 }

/-- Aircraft._check_landing. -/
def Aircraft.check_landing (s : AircraftState) : AircraftState :=
  if RUNWAY_X_START ≤ s.position.x ∧ s.position.x ≤ RUNWAY_X_END then
    if |s.velocity.y| ≤ MAX_LANDING_SPEED ∧ |s.angle| ≤ MAX_LANDING_ANGLE then
      Aircraft.land s
    else
      Aircraft.crash s
  else
    Aircraft.crash s

/-- Aircraft.take_damage. -/
def Aircraft.take_damage (s : AircraftState) (amount : ℚ) : AircraftState × Bool :=
  if s.invulnerable then (s, false)
  else
    let health := s.health - amount
    let health := if health < 0 then 0 else health
    ({ s with health := health, invulnerable := true, invulnerable_timer := 1/5 },
     decide (health ≤ 0))

/-- Aircraft.heal. -/
def Aircraft.heal (s : AircraftState) (amount : ℚ) : AircraftState :=
  { s with health := min s.max_health (s.health + amount) }

/-- Aircraft.add_fuel. -/
def Aircraft.add_fuel (s : AircraftState) (amount : ℚ) : AircraftState :=
  { s with fuel := min s.max_fuel (s.fuel + amount) }

/-- Aircraft.activate_shield (the one call site passes duration 5.0). -/
def Aircraft.activate_shield (s : AircraftState) (duration : ℚ) : AircraftState :=
  { s with shield_active := true, shield_duration := duration }

/-- Aircraft.take_shield_hit; the weapon system link is always present in
the running game, so the `weapon_system is None` guard is dropped. -/
def Aircraft.take_shield_hit (s : AircraftState) (w : WeaponState) (energy_cost : ℚ) :
    AircraftState × WeaponState :=
  if ¬s.shield_active then (s, w)
  else
    let e := w.shield_energy - energy_cost
    let e := if e < 0 then 0 else e
    if e ≤ 0 then
      ({ s with shield_active := false, shield_duration := 0 }, { w with shield_energy := e })
    else (s, { w with shield_energy := e })

/-- The body of Aircraft._update_ground_physics up to (not including) the
takeoff check: thrust acceleration, brake/friction decay, speed cap,
horizontal motion, pitch clamp to [0, 25]. -/
def Aircraft.ground_kinematics (s : AircraftState) (dt : ℚ) : AircraftState :=
  let vx := if 0 < s.thrust then s.velocity.x + s.thrust * Aircraft.acceleration_rate * dt
            else s.velocity.x
  let vx := if s.brakes_active then vx * (19/20) else vx * Aircraft.drag
  let vx := min vx Aircraft.max_speed
  { s with velocity := { s.velocity with x := vx },
           position := { s.position with x := s.position.x + vx },
           angle := max 0 (min 25 s.angle) }

/-- Aircraft._update_ground_physics: ground kinematics followed by the
takeoff check (x ≥ 240, vx ≥ MIN_TAKEOFF_SPEED, angle ≥ 15 — the pitch
threshold is the literal 15 in the source). -/
def Aircraft.update_ground_physics (s : AircraftState) (dt : ℚ) : AircraftState :=
  let t := Aircraft.ground_kinematics s dt
  if 240 ≤ t.position.x ∧ MIN_TAKEOFF_SPEED ≤ t.velocity.x ∧ 15 ≤ t.angle then
    { t with on_ground := false, has_taken_off := true, gear_down := false,
             velocity := { t.velocity with y := -(11/5) } }
  else t

/-- The body of Aircraft._update_air_physics up to (not including) the
landing check.  `sinDeg` abstracts `math.sin (math.radians ·)`. -/
def Aircraft.air_kinematics (sinDeg : ℚ → ℚ) (s : AircraftState) (dt : ℚ) : AircraftState :=
  let vx := if 0 < s.thrust ∧ 0 < s.fuel then
              s.velocity.x + s.thrust * Aircraft.acceleration_rate * (1/2) * dt
            else s.velocity.x
  let lift := sinDeg s.angle * Aircraft.lift_factor * vx
  let vy := s.velocity.y - lift
  let vy := vy + GRAVITY * dt
  let vx := if s.spoilers_active then vx * (24/25) else vx * Aircraft.drag
  let vy := vy * (99/100)
  let vy := if 0 < s.flaps then vy - s.flaps * (1/50) else vy
  let vx := if 0 < s.flaps then vx * (49/50) else vx
  let vy := if s.spoilers_active then vy + 1/10 else vy
  let vx := min vx Aircraft.max_speed
  let vy := max (-5) (min 5 vy)
  let x := s.position.x + vx
  let y := s.position.y + vy
  let x := if s.has_taken_off then max 50 (min 250 x) else max 20 (min 780 x)
  let y := max 20 (min 580 y)
  { s with velocity := ⟨vx, vy⟩, position := ⟨x, y⟩, angle := max (-10) (min 30 s.angle) }

/-- Aircraft._update_air_physics: air kinematics, then the landing check
whenever the (clamped) vertical position has reached ground level. -/
def Aircraft.update_air_physics (sinDeg : ℚ → ℚ) (s : AircraftState) (dt : ℚ) : AircraftState :=
  let t := Aircraft.air_kinematics sinDeg s dt
  if GROUND_LEVEL ≤ t.position.y then Aircraft.check_landing t else t

/-- The invulnerability-timer block at the top of Aircraft.update. -/
def Aircraft.invuln_step (s : AircraftState) (dt : ℚ) : AircraftState :=
  if s.invulnerable then
    let timer := s.invulnerable_timer - dt
    if timer ≤ 0 then { s with invulnerable_timer := timer, invulnerable := false }
    else { s with invulnerable_timer := timer }
  else s

/-- The shield block of Aircraft.update: count down the duration, drain
the linked weapon system's energy pool by 3 per unit time (clamped at 0),
and deactivate the shield when the duration has expired or the energy is
exhausted. -/
def Aircraft.shield_step (s : AircraftState) (w : WeaponState) (dt : ℚ) :
    AircraftState × WeaponState :=
  if s.shield_active then
    let duration := s.shield_duration - dt
    let e := w.shield_energy - 3 * dt
    let e := if e < 0 then 0 else e
    if duration ≤ 0 ∨ e ≤ 0 then
      ({ s with shield_active := false, shield_duration := 0 }, { w with shield_energy := e })
    else ({ s with shield_duration := duration }, { w with shield_energy := e })
  else (s, w)

/-- The fuel-consumption block at the bottom of Aircraft.update. -/
def Aircraft.fuel_step (s : AircraftState) (dt : ℚ) : AircraftState :=
  if 0 < s.thrust then
    let fuel := max 0 (s.fuel - s.thrust * (1/200) * dt)
    if fuel ≤ 0 then { s with fuel := fuel, thrust := 0 } else { s with fuel := fuel }
  else s

/-- Aircraft.update: invulnerability countdown, shield drain (on the
linked weapon system's energy pool) with auto-deactivation, ground or air
physics, then fuel consumption.  Sprite selection is render-only and
omitted. -/
def Aircraft.update (sinDeg : ℚ → ℚ) (s : AircraftState) (w : WeaponState) (dt : ℚ) :
    AircraftState × WeaponState :=
  let s := Aircraft.invuln_step s dt
  let sw := Aircraft.shield_step s w dt
  let s := if sw.1.on_ground then Aircraft.update_ground_physics sw.1 dt
           else Aircraft.update_air_physics sinDeg sw.1 dt
  (Aircraft.fuel_step s dt, sw.2)

/-- The five enemy types of classes/enemies.py. -/
inductive EnemyType
  | drone
  | bomber
  | gunship
  | elite
  | kamikaze
deriving DecidableEq, Repr

/-- The enemy behaviour state strings "spawn" / "move". -/
inductive EnemyAIState
  | spawn
  | move
deriving DecidableEq, Repr

/-- Enemy state (enemies.py); sprite and size fields are render-only and
omitted. -/
structure Enemy where
  position : Vec2
  type : EnemyType
  active : Bool
  state : EnemyAIState
  health : ℚ
  max_health : ℚ
  speed : ℚ
  damage : ℚ
  score_value : ℚ
  velocity : Vec2
  move_timer : ℚ
  attack_cooldown : ℚ
deriving DecidableEq, Repr

/-- Enemy._get_stats: (health, max_health, speed, damage, score_value). -/
def Enemy.stats : EnemyType → ℚ × ℚ × ℚ × ℚ × ℚ
  | .drone => (30, 30, 2, 10, 100)
  | .bomber => (60, 60, 3/2, 15, 200)
  | .gunship => (100, 100, 9/5, 20, 300)
  | .elite => (150, 150, 11/5, 25, 400)
  | .kamikaze => (20, 20, 4, 40, 150)

/-- Enemy.__init__. -/
def Enemy.init (position : Vec2) (t : EnemyType) : Enemy :=
  let st := Enemy.stats t
  { position := position, type := t, active := true, state := .spawn,
    health := st.1, max_health := st.2.1, speed := st.2.2.1,
    damage := st.2.2.2.1, score_value := st.2.2.2.2,
    velocity := ⟨-(st.2.2.1), 0⟩, move_timer := 0, attack_cooldown := 0 }

/-- Enemy.take_damage: subtract (no clamp), deactivate and report death
when health drops to 0 or below. -/
def Enemy.take_damage (e : Enemy) (amount : ℚ) : Enemy × Bool :=
  let e := { e with health := e.health - amount }
  if e.health ≤ 0 then ({ e with active := false }, true) else (e, false)

/-- Enemy.update.  The type-dispatched movement/attack body
(`_update_drone`, `_update_bomber`, …), which draws on `random` and on
trigonometric functions, is abstracted by the `behave` oracle (given dt,
the enemy after the bookkeeping steps, and the player position, it yields
the moved enemy and its emitted projectiles); the surrounding bookkeeping
— timers, the spawn→move state step and the off-screen deactivation — is
embedded literally. -/
def Enemy.update (behave : ℚ → Enemy → Vec2 → Enemy × List EnemyProjectile)
    (e : Enemy) (dt : ℚ) (player_pos : Vec2) : Enemy × List EnemyProjectile :=
  if ¬e.active then (e, [])
  else
    let e := { e with move_timer := e.move_timer + dt,
                      attack_cooldown := max 0 (e.attack_cooldown - dt) }
    let e := if e.state = .spawn then { e with state := .move } else e
    let ep := behave dt e player_pos
    let e := if ep.1.position.x < -100 then { ep.1 with active := false } else ep.1
    (e, ep.2)

/-- The three boss identities. -/
inductive BossType
  | hive_queen
  | aegis_defender
  | final_destroyer
deriving DecidableEq, Repr

/-- Boss state (enemies.py). -/
structure Boss where
  position : Vec2
  type : BossType
  active : Bool
  phase : ℕ
  max_health : ℚ
  health : ℚ
  size : ℚ
  score_value : ℚ
  velocity : Vec2
  move_timer : ℚ
  attack_timer : ℚ
  phase_transition_timer : ℚ
  entered : Bool
  entry_target_x : ℚ
deriving DecidableEq, Repr

/-- Boss.__init__. -/
def Boss.init (position : Vec2) (t : BossType) : Boss :=
  let mh : ℚ := match t with
    | .hive_queen => 800
    | .aegis_defender => 1200
    | .final_destroyer => 1800
  let size : ℚ := match t with
    | .hive_queen => 300
    | .aegis_defender => 360
    | .final_destroyer => 440
  let sv : ℚ := match t with
    | .hive_queen => 5000
    | .aegis_defender => 8000
    | .final_destroyer => 15000
  { position := position, type := t, active := true, phase := 1,
    max_health := mh, health := mh, size := size, score_value := sv,
    velocity := ⟨0, 0⟩, move_timer := 0, attack_timer := 0,
    phase_transition_timer := 0, entered := false, entry_target_x := 650 }

/-- Boss.take_damage: rejected outright while the phase-transition timer
is positive, otherwise subtract (no clamp) and deactivate on death. -/
def Boss.take_damage (b : Boss) (amount : ℚ) : Boss × Bool :=
  if 0 < b.phase_transition_timer then (b, false)
  else
    let b := { b with health := b.health - amount }
    if b.health ≤ 0 then ({ b with active := false }, true) else (b, false)

/-- Boss._update_movement: vertical sine wave kept on screen.  `sinR`
abstracts `math.sin` on raw radians. -/
def Boss.update_movement (sinR : ℚ → ℚ) (b : Boss) : Boss :=
  let y := 300 + sinR (b.move_timer * (1/2)) * 100
  { b with position := { b.position with y := max 100 (min 500 y) } }

/-- Boss.update: timers, then either the scripted entry glide (3 px left
per tick until entry_target_x, then `entered` flips) or, once entered,
the health-fraction phase transitions (elif-chained, each granting a 2 s
invulnerability timer), the timer countdown, and otherwise the attack
pattern and movement.  The per-type, per-phase attack bodies draw on
`random` and trigonometry and only ever reset `attack_timer` and emit
projectiles, so they are abstracted by the `attack` oracle returning the
new attack_timer and the emitted projectiles. -/
def Boss.update (sinR : ℚ → ℚ) (attack : ℚ → Boss → Vec2 → ℚ × List EnemyProjectile)
    (b : Boss) (dt : ℚ) (player_pos : Vec2) : Boss × List EnemyProjectile :=
  if ¬b.active then (b, [])
  else
    let b := { b with move_timer := b.move_timer + dt, attack_timer := b.attack_timer + dt }
    if ¬b.entered then
      if b.entry_target_x < b.position.x then
        ({ b with position := { b.position with x := b.position.x - 3 } }, [])
      else ({ b with entered := true }, [])
    else
      let hp := b.health / b.max_health
      let b :=
        if hp ≤ 33/50 ∧ b.phase = 1 then { b with phase := 2, phase_transition_timer := 2 }
        else if hp ≤ 33/100 ∧ b.phase = 2 then { b with phase := 3, phase_transition_timer := 2 }
        else b
      if 0 < b.phase_transition_timer then
        ({ b with phase_transition_timer := b.phase_transition_timer - dt }, [])
      else
        let ap := attack dt b player_pos
        (Boss.update_movement sinR { b with attack_timer := ap.1 }, ap.2)

/-- A (enemy type, spawn y) entry of a wave's spawn list. -/
structure SpawnEntry where
  type : EnemyType
  y : ℚ
deriving DecidableEq, Repr

/-- EnemyManager state (enemies.py).  `boss_defeated` models the
dynamically-added python attribute that levels.py probes with `hasattr`:
`none` means the attribute does not exist on the object (no code in the
repository ever creates it), `some v` would mean it exists with value
`v`. -/
structure EnemyManagerState where
  enemies : List Enemy
  boss : Option Boss
  boss_defeated : Option Bool
  projectiles : List EnemyProjectile
  spawn_timer : ℚ
  spawn_delay : ℚ
  spawn_queue : List SpawnEntry
deriving DecidableEq, Repr

/-- EnemyManager.__init__. -/
def EnemyManager.init : EnemyManagerState :=
  { enemies := [], boss := none, boss_defeated := none, projectiles := [],
    spawn_timer := 0, spawn_delay := 2, spawn_queue := [] }

/-- EnemyManager.set_spawn_queue. -/
def EnemyManager.set_spawn_queue (em : EnemyManagerState) (queue : List SpawnEntry) :
    EnemyManagerState :=
  { em with spawn_queue := queue, spawn_timer := 0 }

/-- EnemyManager.spawn_boss: create the boss at (900, 300) and clear the
regular enemies. -/
def EnemyManager.spawn_boss (em : EnemyManagerState) (t : BossType) : EnemyManagerState :=
  { em with boss := some (Boss.init ⟨900, 300⟩ t), enemies := [] }

/-- EnemyManager.is_wave_complete. -/
def EnemyManager.is_wave_complete (em : EnemyManagerState) : Bool :=
  em.enemies.isEmpty && em.spawn_queue.isEmpty && em.boss.isNone

/-- EnemyManager.update: spawn-queue draining on the spawn timer, per-
enemy updates with removal of inactive enemies, the boss update with the
boss reference dropped once inactive, re-homing of the player's missiles
against the current enemies plus boss, and projectile updates with
removal.  Oracle parameters are as in Enemy.update, Boss.update and
HomingMissile.update. -/
def EnemyManager.update (behave : ℚ → Enemy → Vec2 → Enemy × List EnemyProjectile)
    (sinR : ℚ → ℚ) (attack : ℚ → Boss → Vec2 → ℚ × List EnemyProjectile)
    (atan2Deg : ℚ → ℚ → ℚ) (cosDeg sinDeg : ℚ → ℚ)
    (em : EnemyManagerState) (dt : ℚ) (player_pos : Vec2)
    (missiles : List HomingMissile) : EnemyManagerState × List HomingMissile :=
  let em := { em with spawn_timer := em.spawn_timer + dt }
  let em :=
    match em.spawn_queue with
    | [] => em
    | entry :: rest =>
        if em.spawn_delay ≤ em.spawn_timer then
          { em with spawn_timer := 0, spawn_queue := rest,
                    enemies := em.enemies ++ [Enemy.init ⟨850, entry.y⟩ entry.type] }
        else em
  let updated := em.enemies.map (fun e => Enemy.update behave e dt player_pos)
  let em := { em with enemies := (updated.map Prod.fst).filter (fun e => e.active),
                      projectiles := em.projectiles ++ (updated.map Prod.snd).flatten }
  let em :=
    match em.boss with
    | none => em
    | some b =>
        let bp := Boss.update sinR attack b dt player_pos
        { em with boss := if bp.1.active then some bp.1 else none,
                  projectiles := em.projectiles ++ bp.2 }
  let targets := em.enemies.map (fun e => Target.mk e.position e.active) ++
                 (match em.boss with
                  | some b => [Target.mk b.position b.active]
                  | none => [])
  let missiles := missiles.map (fun m =>
    if m.active then HomingMissile.update atan2Deg cosDeg sinDeg m dt targets else m)
  let em := { em with
    projectiles := (em.projectiles.map (EnemyProjectile.update dt)).filter (fun p => p.active) }
  (em, missiles)

/-- The cooldown-ticking block of WeaponSystem.update. -/
def WeaponSystem.tick_cooldowns (w : WeaponState) (dt : ℚ) : WeaponState :=
  { w with
    cd_primary := if 0 < w.cd_primary then max 0 (w.cd_primary - dt) else w.cd_primary,
    cd_missile := if 0 < w.cd_missile then max 0 (w.cd_missile - dt) else w.cd_missile,
    cd_laser := if 0 < w.cd_laser then max 0 (w.cd_laser - dt) else w.cd_laser,
    cd_shield := if 0 < w.cd_shield then max 0 (w.cd_shield - dt) else w.cd_shield }

/-- The resource-regeneration block of WeaponSystem.update: fast laser
charging while the charging flag is held, slow laser regeneration when
idle, and shield-energy regeneration toward the cap whenever below it. -/
def WeaponSystem.charge_step (w : WeaponState) (dt : ℚ) : WeaponState :=
  let w := if w.is_charging_laser ∧ w.laser_charge < w.max_laser_charge then
      { w with laser_charge := min w.max_laser_charge (w.laser_charge + 40 * dt) } else w
  let w := if ¬w.is_charging_laser ∧ w.laser_charge < w.max_laser_charge then
      { w with laser_charge := min w.max_laser_charge (w.laser_charge + 5 * dt) } else w
  if w.shield_energy < w.max_shield_energy then
    { w with shield_energy := min w.max_shield_energy (w.shield_energy + 3 * dt) }
  else w

/-- The projectile-maintenance block of WeaponSystem.update: update the
three collections and drop inactive entries (missiles are updated with an
empty enemy list here, as in the source). -/
def WeaponSystem.projectiles_step (atan2Deg : ℚ → ℚ → ℚ) (cosDeg sinDeg : ℚ → ℚ)
    (w : WeaponState) (dt : ℚ) : WeaponState :=
  let w := { w with bullets := (w.bullets.map (Bullet.update dt)).filter (fun b => b.active) }
  let ms := w.missiles.map (fun m => HomingMissile.update atan2Deg cosDeg sinDeg m dt [])
  let w := { w with missiles := ms.filter (fun m => m.active) }
  { w with lasers := (w.lasers.map (PlasmaLaser.update dt)).filter (fun l => l.active) }

/-- WeaponSystem.update: independent cooldown ticking, laser charging /
idle regeneration, unconditional shield-energy regeneration toward the
cap whenever below it, then projectile maintenance. -/
def WeaponSystem.update (atan2Deg : ℚ → ℚ → ℚ) (cosDeg sinDeg : ℚ → ℚ)
    (w : WeaponState) (dt : ℚ) : WeaponState :=
  WeaponSystem.projectiles_step atan2Deg cosDeg sinDeg
    (WeaponSystem.charge_step (WeaponSystem.tick_cooldowns w dt) dt) dt

/-- WeaponSystem.fire_primary: gated only by the primary cooldown; on
success the cooldown is reset and 1, 2 or 3 bullets are appended
depending on the upgrade level. -/
def WeaponSystem.fire_primary (cosDeg sinDeg : ℚ → ℚ) (aircraft : AircraftState)
    (w : WeaponState) : WeaponState × Bool :=
  if 0 < w.cd_primary then (w, false)
  else
    let w := { w with cd_primary := cooldown_time_primary }
    let w :=
      if w.primary_level = 1 then
        { w with bullets := w.bullets ++ [Bullet.init cosDeg sinDeg aircraft.position 0 15] }
      else if w.primary_level = 2 then
        { w with bullets := w.bullets ++
            [Bullet.init cosDeg sinDeg (aircraft.position + ⟨0, -10⟩) 0 15,
             Bullet.init cosDeg sinDeg (aircraft.position + ⟨0, 10⟩) 0 15] }
      else if 3 ≤ w.primary_level then
        { w with bullets := w.bullets ++
            [Bullet.init cosDeg sinDeg aircraft.position 0 15,
             Bullet.init cosDeg sinDeg aircraft.position 15 15,
             Bullet.init cosDeg sinDeg aircraft.position (-15) 15] }
      else w
    (w, true)

/-- WeaponSystem.fire_missile: gated by the missile cooldown and a
nonempty missile inventory; on success the cooldown is reset, one missile
is consumed and a homing missile is appended. -/
def WeaponSystem.fire_missile (aircraft : AircraftState) (w : WeaponState) :
    WeaponState × Bool :=
  if 0 < w.cd_missile ∨ w.missile_count ≤ 0 then (w, false)
  else
    ({ w with cd_missile := cooldown_time_missile,
              missile_count := w.missile_count - 1,
              missiles := w.missiles ++ [HomingMissile.init aircraft.position] }, true)

/-- WeaponSystem.fire_laser: gated by the laser cooldown and a charge of
at least 30; on success the cooldown is reset, a beam carrying the whole
charge is appended, and the charge is consumed. -/
def WeaponSystem.fire_laser (aircraft : AircraftState) (w : WeaponState) :
    WeaponState × Bool :=
  if 0 < w.cd_laser ∨ w.laser_charge < 30 then (w, false)
  else
    ({ w with cd_laser := cooldown_time_laser,
              lasers := w.lasers ++ [PlasmaLaser.init aircraft.position w.laser_charge],
              laser_charge := 0, is_charging_laser := false }, true)

/-- WeaponSystem.activate_shield: gated by the shield cooldown and at
least 40 energy; on success the cooldown is reset, 40 energy is consumed
and the aircraft's shield is activated for 5 seconds. -/
def WeaponSystem.activate_shield (aircraft : AircraftState) (w : WeaponState) :
    WeaponState × AircraftState × Bool :=
  if 0 < w.cd_shield ∨ w.shield_energy < 40 then (w, aircraft, false)
  else
    ({ w with cd_shield := cooldown_time_shield, shield_energy := w.shield_energy - 40 },
     Aircraft.activate_shield aircraft 5, true)

/-- WeaponSystem.upgrade_primary. -/
def WeaponSystem.upgrade_primary (w : WeaponState) : WeaponState × Bool :=
  if w.primary_level < 3 then ({ w with primary_level := w.primary_level + 1 }, true)
  else (w, false)

/-- WeaponSystem.add_missiles. -/
def WeaponSystem.add_missiles (w : WeaponState) (count : ℤ) : WeaponState :=
  { w with missile_count := min w.max_missiles (w.missile_count + count) }

/-- One wave: its spawn list and inter-spawn delay. -/
structure Wave where
  enemies : List SpawnEntry
  delay : ℚ
deriving DecidableEq, Repr

/-- A level's combat content: its boss identity and its waves (the name,
difficulty and description strings are display-only and omitted). -/
structure LevelData where
  boss : BossType
  waves : List Wave
deriving DecidableEq, Repr

/-- LevelManager._level_1_data ("Drone Scramble"). -/
def LevelManager.level_1_data : LevelData :=
  { boss := .hive_queen,
    waves :=
      [ { enemies := [⟨.drone, 150⟩, ⟨.drone, 250⟩, ⟨.drone, 350⟩, ⟨.drone, 450⟩],
          delay := 3/2 },
        { enemies := [⟨.drone, 100⟩, ⟨.drone, 200⟩, ⟨.drone, 300⟩, ⟨.drone, 400⟩,
                      ⟨.drone, 500⟩],
          delay := 6/5 },
        { enemies := [⟨.drone, 150⟩, ⟨.bomber, 250⟩, ⟨.drone, 350⟩, ⟨.bomber, 450⟩],
          delay := 3/2 },
        { enemies := [⟨.drone, 100⟩, ⟨.drone, 200⟩, ⟨.bomber, 300⟩, ⟨.drone, 400⟩,
                      ⟨.bomber, 500⟩, ⟨.drone, 250⟩],
          delay := 1 },
        { enemies := [⟨.bomber, 150⟩, ⟨.drone, 200⟩, ⟨.drone, 300⟩, ⟨.bomber, 400⟩,
                      ⟨.drone, 450⟩],
          delay := 6/5 } ] }

/-- LevelManager._level_2_data ("Stormfront Assault"). -/
def LevelManager.level_2_data : LevelData :=
  { boss := .aegis_defender,
    waves :=
      [ { enemies := [⟨.drone, 120⟩, ⟨.bomber, 220⟩, ⟨.gunship, 300⟩, ⟨.bomber, 380⟩,
                      ⟨.drone, 480⟩],
          delay := 6/5 },
        { enemies := [⟨.gunship, 150⟩, ⟨.drone, 250⟩, ⟨.gunship, 350⟩, ⟨.drone, 450⟩],
          delay := 3/2 },
        { enemies := [⟨.elite, 200⟩, ⟨.bomber, 300⟩, ⟨.elite, 400⟩, ⟨.gunship, 250⟩,
                      ⟨.gunship, 350⟩],
          delay := 13/10 },
        { enemies := [⟨.drone, 100⟩, ⟨.elite, 180⟩, ⟨.bomber, 260⟩, ⟨.gunship, 340⟩,
                      ⟨.elite, 420⟩, ⟨.drone, 500⟩],
          delay := 1 },
        { enemies := [⟨.kamikaze, 150⟩, ⟨.kamikaze, 250⟩, ⟨.elite, 300⟩, ⟨.kamikaze, 350⟩,
                      ⟨.kamikaze, 450⟩],
          delay := 11/10 },
        { enemies := [⟨.elite, 120⟩, ⟨.gunship, 200⟩, ⟨.bomber, 280⟩, ⟨.gunship, 360⟩,
                      ⟨.elite, 440⟩],
          delay := 6/5 } ] }

/-- LevelManager._level_3_data ("Final Showdown"). -/
def LevelManager.level_3_data : LevelData :=
  { boss := .final_destroyer,
    waves :=
      [ { enemies := [⟨.kamikaze, 100⟩, ⟨.elite, 180⟩, ⟨.gunship, 260⟩, ⟨.kamikaze, 340⟩,
                      ⟨.elite, 420⟩, ⟨.kamikaze, 500⟩],
          delay := 9/10 },
        { enemies := [⟨.elite, 150⟩, ⟨.elite, 250⟩, ⟨.elite, 350⟩, ⟨.elite, 450⟩],
          delay := 13/10 },
        { enemies := [⟨.bomber, 120⟩, ⟨.gunship, 200⟩, ⟨.elite, 280⟩, ⟨.gunship, 360⟩,
                      ⟨.bomber, 440⟩, ⟨.kamikaze, 300⟩],
          delay := 4/5 },
        { enemies := [⟨.kamikaze, 150⟩, ⟨.kamikaze, 200⟩, ⟨.elite, 250⟩, ⟨.kamikaze, 300⟩,
                      ⟨.kamikaze, 350⟩, ⟨.elite, 400⟩, ⟨.kamikaze, 450⟩],
          delay := 7/10 },
        { enemies := [⟨.elite, 100⟩, ⟨.gunship, 170⟩, ⟨.bomber, 240⟩, ⟨.kamikaze, 280⟩,
                      ⟨.elite, 340⟩, ⟨.gunship, 410⟩, ⟨.kamikaze, 480⟩],
          delay := 9/10 },
        { enemies := [⟨.elite, 150⟩, ⟨.elite, 250⟩, ⟨.gunship, 200⟩, ⟨.gunship, 350⟩,
                      ⟨.bomber, 300⟩, ⟨.kamikaze, 400⟩],
          delay := 1 },
        { enemies := [⟨.elite, 180⟩, ⟨.elite, 280⟩, ⟨.elite, 380⟩, ⟨.kamikaze, 230⟩,
                      ⟨.kamikaze, 330⟩],
          delay := 1 } ] }

/-- LevelManager.get_level_data (any level other than 1, 2, 3 falls back
to level 1's data). -/
def LevelManager.get_level_data (level_num : ℕ) : LevelData :=
  if level_num = 1 then LevelManager.level_1_data
  else if level_num = 2 then LevelManager.level_2_data
  else if level_num = 3 then LevelManager.level_3_data
  else LevelManager.level_1_data

/-- LevelManager state (levels.py); the parallax background layers are
render-only and omitted, except for the numeric scroll state that
LevelManager.update itself advances. -/
structure LevelManagerState where
  current_level : ℕ
  max_levels : ℕ
  current_wave : ℕ
  wave_complete : Bool
  level_complete : Bool
  scroll_x : ℚ
  scroll_speed : ℚ
  waves_started : Bool
deriving DecidableEq, Repr

/-- LevelManager.load_level. -/
def LevelManager.load_level (lm : LevelManagerState) (level_num : ℕ) : LevelManagerState :=
  { lm with current_level := level_num, current_wave := 0, wave_complete := false,
            level_complete := false, scroll_x := 0, waves_started := false }

/-- LevelManager.__init__. -/
def LevelManager.init (level : ℕ) : LevelManagerState :=
  LevelManager.load_level
    { current_level := level, max_levels := 3, current_wave := 0, wave_complete := false,
      level_complete := false, scroll_x := 0, scroll_speed := 1, waves_started := false }
    level

/-- Helper for the two places LevelManager.update loads a wave into the
enemy manager: set the spawn queue and the wave's delay. -/
def LevelManager.start_wave (em : EnemyManagerState) (wave : Wave) : EnemyManagerState :=
  { EnemyManager.set_spawn_queue em wave.enemies with spawn_delay := wave.delay }

/-- The start-first-wave block of LevelManager.update: once the aircraft
has taken off and waves have not been started yet, mark them started and
load the current wave (if any) into the enemy manager. -/
def LevelManager.start_first_wave (lm : LevelManagerState) (em : EnemyManagerState)
    (level_data : LevelData) : LevelManagerState × EnemyManagerState :=
  if ¬lm.waves_started then
    let lm := { lm with waves_started := true }
    match level_data.waves[lm.current_wave]? with
    | some wave => (lm, LevelManager.start_wave em wave)
    | none => (lm, em)
  else (lm, em)

/-- The progression block of LevelManager.update: with all waves
exhausted, spawn the boss when there is none and the `boss_defeated`
attribute does not exist, or mark the level complete when there is no
boss and `boss_defeated` exists and is true; with waves remaining,
advance to the next wave when the current one is complete. -/
def LevelManager.progress (lm : LevelManagerState) (em : EnemyManagerState)
    (level_data : LevelData) : LevelManagerState × EnemyManagerState :=
  if level_data.waves.length ≤ lm.current_wave then
    if em.boss = none ∧ em.boss_defeated = none then
      (lm, EnemyManager.spawn_boss em level_data.boss)
    else if em.boss = none ∧ em.boss_defeated = some true then
      ({ lm with level_complete := true }, em)
    else (lm, em)
  else
    if EnemyManager.is_wave_complete em then
      let lm := { lm with current_wave := lm.current_wave + 1 }
      match level_data.waves[lm.current_wave]? with
      | some wave => (lm, LevelManager.start_wave em wave)
      | none => (lm, em)
    else (lm, em)

/-- LevelManager.update: advance the background scroll, do nothing until
the aircraft has taken off, start the first wave once, then run the
progression block. -/
def LevelManager.update (lm : LevelManagerState) (dt : ℚ) (aircraft : AircraftState)
    (em : EnemyManagerState) : LevelManagerState × EnemyManagerState :=
  let lm := { lm with scroll_x := lm.scroll_x + lm.scroll_speed * dt * 60 }
  if ¬aircraft.has_taken_off then (lm, em)
  else
    let level_data := LevelManager.get_level_data lm.current_level
    let lmem := LevelManager.start_first_wave lm em level_data
    LevelManager.progress lmem.1 lmem.2 level_data

/-- The aircraft-and-weapons prefix of one combat-phase frame of
SkyFuryGame.update (sky_fury.py): the aircraft updates first (draining
shield energy while the shield is active), then the weapon system updates
(ticking cooldowns and regenerating resources). -/
def combat_tick (cosDeg sinDeg : ℚ → ℚ) (atan2Deg : ℚ → ℚ → ℚ)
    (s : AircraftState) (w : WeaponState) (dt : ℚ) : AircraftState × WeaponState :=
  let sw := Aircraft.update sinDeg s w dt
  (sw.1, WeaponSystem.update atan2Deg cosDeg sinDeg sw.2 dt)

/-! Helper lemmas: which aircraft fields each physics step leaves
untouched, and small arithmetic bridges. -/

theorem clamp0_eq_max (x : ℚ) : (if x < 0 then (0:ℚ) else x) = max 0 x := by
  rw [max_def]
  split_ifs <;> first | rfl | linarith

theorem ground_kinematics_on_ground (s : AircraftState) (dt : ℚ) :
    (Aircraft.ground_kinematics s dt).on_ground = s.on_ground := rfl

theorem ground_kinematics_health (s : AircraftState) (dt : ℚ) :
    (Aircraft.ground_kinematics s dt).health = s.health := rfl

theorem ground_kinematics_fuel (s : AircraftState) (dt : ℚ) :
    (Aircraft.ground_kinematics s dt).fuel = s.fuel := rfl

theorem update_ground_physics_health (s : AircraftState) (dt : ℚ) :
    (Aircraft.update_ground_physics s dt).health = s.health := by
  simp only [Aircraft.update_ground_physics]
  split <;> rfl

theorem update_ground_physics_fuel (s : AircraftState) (dt : ℚ) :
    (Aircraft.update_ground_physics s dt).fuel = s.fuel := by
  simp only [Aircraft.update_ground_physics]
  split <;> rfl

theorem update_ground_physics_invulnerable (s : AircraftState) (dt : ℚ) :
    (Aircraft.update_ground_physics s dt).invulnerable = s.invulnerable := by
  simp only [Aircraft.update_ground_physics]
  split <;> rfl

theorem update_ground_physics_max_health (s : AircraftState) (dt : ℚ) :
    (Aircraft.update_ground_physics s dt).max_health = s.max_health := by
  simp only [Aircraft.update_ground_physics]
  split <;> rfl

theorem update_ground_physics_max_fuel (s : AircraftState) (dt : ℚ) :
    (Aircraft.update_ground_physics s dt).max_fuel = s.max_fuel := by
  simp only [Aircraft.update_ground_physics]
  split <;> rfl

theorem update_ground_physics_thrust (s : AircraftState) (dt : ℚ) :
    (Aircraft.update_ground_physics s dt).thrust = s.thrust := by
  simp only [Aircraft.update_ground_physics]
  split <;> rfl

theorem update_ground_physics_shield_active (s : AircraftState) (dt : ℚ) :
    (Aircraft.update_ground_physics s dt).shield_active = s.shield_active := by
  simp only [Aircraft.update_ground_physics]
  split <;> rfl

theorem update_ground_physics_shield_duration (s : AircraftState) (dt : ℚ) :
    (Aircraft.update_ground_physics s dt).shield_duration = s.shield_duration := by
  simp only [Aircraft.update_ground_physics]
  split <;> rfl

theorem check_landing_invulnerable (s : AircraftState) :
    (Aircraft.check_landing s).invulnerable = s.invulnerable := by
  simp only [Aircraft.check_landing]
  split_ifs <;> rfl

theorem check_landing_fuel (s : AircraftState) :
    (Aircraft.check_landing s).fuel = s.fuel := by
  simp only [Aircraft.check_landing]
  split_ifs <;> rfl

theorem check_landing_thrust (s : AircraftState) :
    (Aircraft.check_landing s).thrust = s.thrust := by
  simp only [Aircraft.check_landing]
  split_ifs <;> rfl

theorem check_landing_max_health (s : AircraftState) :
    (Aircraft.check_landing s).max_health = s.max_health := by
  simp only [Aircraft.check_landing]
  split_ifs <;> rfl

theorem check_landing_max_fuel (s : AircraftState) :
    (Aircraft.check_landing s).max_fuel = s.max_fuel := by
  simp only [Aircraft.check_landing]
  split_ifs <;> rfl

theorem check_landing_shield_active (s : AircraftState) :
    (Aircraft.check_landing s).shield_active = s.shield_active := by
  simp only [Aircraft.check_landing]
  split_ifs <;> rfl

theorem check_landing_shield_duration (s : AircraftState) :
    (Aircraft.check_landing s).shield_duration = s.shield_duration := by
  simp only [Aircraft.check_landing]
  split_ifs <;> rfl

theorem check_landing_health (s : AircraftState) :
    (Aircraft.check_landing s).health = s.health ∨ (Aircraft.check_landing s).health = 0 := by
  simp only [Aircraft.check_landing]
  split_ifs <;> simp [Aircraft.land, Aircraft.crash]

theorem update_air_physics_invulnerable (sinDeg : ℚ → ℚ) (s : AircraftState) (dt : ℚ) :
    (Aircraft.update_air_physics sinDeg s dt).invulnerable = s.invulnerable := by
  simp only [Aircraft.update_air_physics]
  split
  · rw [check_landing_invulnerable]
    rfl
  · rfl

theorem update_air_physics_fuel (sinDeg : ℚ → ℚ) (s : AircraftState) (dt : ℚ) :
    (Aircraft.update_air_physics sinDeg s dt).fuel = s.fuel := by
  simp only [Aircraft.update_air_physics]
  split
  · rw [check_landing_fuel]
    rfl
  · rfl

theorem update_air_physics_thrust (sinDeg : ℚ → ℚ) (s : AircraftState) (dt : ℚ) :
    (Aircraft.update_air_physics sinDeg s dt).thrust = s.thrust := by
  simp only [Aircraft.update_air_physics]
  split
  · rw [check_landing_thrust]
    rfl
  · rfl

theorem update_air_physics_max_health (sinDeg : ℚ → ℚ) (s : AircraftState) (dt : ℚ) :
    (Aircraft.update_air_physics sinDeg s dt).max_health = s.max_health := by
  simp only [Aircraft.update_air_physics]
  split
  · rw [check_landing_max_health]
    rfl
  · rfl

theorem update_air_physics_max_fuel (sinDeg : ℚ → ℚ) (s : AircraftState) (dt : ℚ) :
    (Aircraft.update_air_physics sinDeg s dt).max_fuel = s.max_fuel := by
  simp only [Aircraft.update_air_physics]
  split
  · rw [check_landing_max_fuel]
    rfl
  · rfl

theorem update_air_physics_shield_active (sinDeg : ℚ → ℚ) (s : AircraftState) (dt : ℚ) :
    (Aircraft.update_air_physics sinDeg s dt).shield_active = s.shield_active := by
  simp only [Aircraft.update_air_physics]
  split
  · rw [check_landing_shield_active]
    rfl
  · rfl

theorem update_air_physics_shield_duration (sinDeg : ℚ → ℚ) (s : AircraftState) (dt : ℚ) :
    (Aircraft.update_air_physics sinDeg s dt).shield_duration = s.shield_duration := by
  simp only [Aircraft.update_air_physics]
  split
  · rw [check_landing_shield_duration]
    rfl
  · rfl

theorem update_air_physics_health (sinDeg : ℚ → ℚ) (s : AircraftState) (dt : ℚ) :
    (Aircraft.update_air_physics sinDeg s dt).health = s.health ∨
      (Aircraft.update_air_physics sinDeg s dt).health = 0 := by
  simp only [Aircraft.update_air_physics]
  split
  · exact check_landing_health _
  · left
    rfl

/-- Claim C1: while the aircraft is on the ground, the ground-to-air
transition occurs on an update exactly when, after that tick's ground
physics, position.x ≥ 240, velocity.x ≥ 3.5 and angle ≥ 15 hold
simultaneously; on the transition on_ground becomes false, has_taken_off
becomes true, the gear retracts and velocity.y is set to -2.2; and an
aircraft on the ground at x = 245, velocity.x = 4.0, angle = 16 (thrust
0, brakes off) takes off on the next update with velocity.y = -2.2. -/
theorem c1_ground_to_air_transition :
    (∀ (s : AircraftState) (dt : ℚ), s.on_ground = true →
      (((Aircraft.update_ground_physics s dt).on_ground = false) ↔
        (240 ≤ (Aircraft.ground_kinematics s dt).position.x ∧
         MIN_TAKEOFF_SPEED ≤ (Aircraft.ground_kinematics s dt).velocity.x ∧
         15 ≤ (Aircraft.ground_kinematics s dt).angle)) ∧
      ((240 ≤ (Aircraft.ground_kinematics s dt).position.x ∧
        MIN_TAKEOFF_SPEED ≤ (Aircraft.ground_kinematics s dt).velocity.x ∧
        15 ≤ (Aircraft.ground_kinematics s dt).angle) →
        Aircraft.update_ground_physics s dt =
          { Aircraft.ground_kinematics s dt with
              on_ground := false, has_taken_off := true, gear_down := false,
              velocity := { (Aircraft.ground_kinematics s dt).velocity with y := -(11/5) } })) ∧
    (∀ (sinDeg : ℚ → ℚ) (w : WeaponState) (dt : ℚ),
      (Aircraft.update sinDeg
          { Aircraft.init with position := ⟨245, GROUND_LEVEL⟩, velocity := ⟨4, 0⟩, angle := 16 }
          w dt).1.on_ground = false ∧
      (Aircraft.update sinDeg
          { Aircraft.init with position := ⟨245, GROUND_LEVEL⟩, velocity := ⟨4, 0⟩, angle := 16 }
          w dt).1.has_taken_off = true ∧
      (Aircraft.update sinDeg
          { Aircraft.init with position := ⟨245, GROUND_LEVEL⟩, velocity := ⟨4, 0⟩, angle := 16 }
          w dt).1.gear_down = false ∧
      (Aircraft.update sinDeg
          { Aircraft.init with position := ⟨245, GROUND_LEVEL⟩, velocity := ⟨4, 0⟩, angle := 16 }
          w dt).1.velocity.y = -(11/5)) := by
  constructor
  · intro s dt hg
    constructor
    · simp only [Aircraft.update_ground_physics]
      split_ifs with hc
      · simp [hc]
      · simp only [ground_kinematics_on_ground, hg]
        simp [hc]
    · intro hc
      simp only [Aircraft.update_ground_physics]
      rw [if_pos hc]
  · intro sinDeg w dt
    simp only [Aircraft.update, Aircraft.init]
    norm_num [Aircraft.invuln_step, Aircraft.shield_step, Aircraft.fuel_step,
      Aircraft.update_ground_physics, Aircraft.ground_kinematics, Aircraft.drag,
      Aircraft.max_speed, MIN_TAKEOFF_SPEED, GROUND_LEVEL, min_def]

/-- Witness for C1 at the concrete initial aircraft and dt = 1. -/
theorem c1_ground_to_air_transition_witness :
    ((Aircraft.update_ground_physics Aircraft.init 1).on_ground = false) ↔
      (240 ≤ (Aircraft.ground_kinematics Aircraft.init 1).position.x ∧
       MIN_TAKEOFF_SPEED ≤ (Aircraft.ground_kinematics Aircraft.init 1).velocity.x ∧
       15 ≤ (Aircraft.ground_kinematics Aircraft.init 1).angle) :=
  (c1_ground_to_air_transition.1 Aircraft.init 1 rfl).1

/-- Claim C2: whenever the airborne aircraft's vertical position reaches
ground level, the landing check runs; within the runway X-bounds with
|velocity.y| ≤ 3.0 and |angle| ≤ 15.0 it lands (on_ground true,
velocity.y zeroed, position.y snapped to ground level, gear extended);
any other combination at ground-level contact crashes, forcing health to
0. -/
theorem c2_landing_dichotomy :
    ∀ (sinDeg : ℚ → ℚ) (s : AircraftState) (dt : ℚ) (t : AircraftState),
      s.on_ground = false → t = Aircraft.air_kinematics sinDeg s dt →
      (GROUND_LEVEL ≤ t.position.y →
        Aircraft.update_air_physics sinDeg s dt = Aircraft.check_landing t) ∧
      ((RUNWAY_X_START ≤ t.position.x ∧ t.position.x ≤ RUNWAY_X_END) →
        (|t.velocity.y| ≤ MAX_LANDING_SPEED ∧ |t.angle| ≤ MAX_LANDING_ANGLE) →
        Aircraft.check_landing t =
          { t with on_ground := true, velocity := { t.velocity with y := 0 },
                   position := { t.position with y := GROUND_LEVEL }, gear_down := true }) ∧
      (¬((RUNWAY_X_START ≤ t.position.x ∧ t.position.x ≤ RUNWAY_X_END) ∧
         |t.velocity.y| ≤ MAX_LANDING_SPEED ∧ |t.angle| ≤ MAX_LANDING_ANGLE) →
        Aircraft.check_landing t = { t with health := 0 }) := by
  intro sinDeg s dt t hg ht
  refine ⟨?_, ?_, ?_⟩
  · intro hy
    subst ht
    simp only [Aircraft.update_air_physics]
    rw [if_pos hy]
  · intro hx hlim
    simp only [Aircraft.check_landing]
    rw [if_pos hx, if_pos hlim]
    rfl
  · intro hn
    simp only [Aircraft.check_landing]
    split_ifs with h1 h2
    · exact absurd ⟨h1, h2.1, h2.2⟩ hn
    · rfl
    · rfl

/-- Witness for C2: a gliding aircraft above the runway touches down and
lands. -/
theorem c2_landing_dichotomy_witness :
    Aircraft.check_landing (Aircraft.air_kinematics (fun _ => 0)
        { Aircraft.init with on_ground := false, position := ⟨100, 600⟩ } 0) =
      { Aircraft.air_kinematics (fun _ => 0)
          { Aircraft.init with on_ground := false, position := ⟨100, 600⟩ } 0 with
        on_ground := true,
        velocity := { (Aircraft.air_kinematics (fun _ => 0)
            { Aircraft.init with on_ground := false, position := ⟨100, 600⟩ } 0).velocity with
          y := 0 },
        position := { (Aircraft.air_kinematics (fun _ => 0)
            { Aircraft.init with on_ground := false, position := ⟨100, 600⟩ } 0).position with
          y := GROUND_LEVEL },
        gear_down := true } := by
  have h := c2_landing_dichotomy (fun _ => 0)
    { Aircraft.init with on_ground := false, position := ⟨100, 600⟩ } 0
    (Aircraft.air_kinematics (fun _ => 0)
      { Aircraft.init with on_ground := false, position := ⟨100, 600⟩ } 0) rfl rfl
  exact h.2.1 (by norm_num [Aircraft.air_kinematics, Aircraft.init, RUNWAY_X_START,
      RUNWAY_X_END, Aircraft.drag, Aircraft.max_speed, GRAVITY, min_def, max_def])
    (by norm_num [Aircraft.air_kinematics, Aircraft.init, MAX_LANDING_SPEED,
      MAX_LANDING_ANGLE, Aircraft.drag, Aircraft.max_speed, GRAVITY, min_def, max_def])

/-- Claim C3: for each of the four weapon channels, firing while that
channel's cooldown is positive returns failure and changes nothing (no
new projectile, no resource change); firing with cooldown exactly 0 and
the channel's resource precondition met (a missile in inventory, laser
charge ≥ 30, shield energy ≥ 40; the primary has no resource) succeeds
and resets that channel's cooldown to its fixed constant. -/
theorem c3_weapon_cooldown_gating :
    ∀ (cosDeg sinDeg : ℚ → ℚ) (a : AircraftState) (w : WeaponState),
      (0 < w.cd_primary → WeaponSystem.fire_primary cosDeg sinDeg a w = (w, false)) ∧
      (w.cd_primary = 0 →
        (WeaponSystem.fire_primary cosDeg sinDeg a w).2 = true ∧
        (WeaponSystem.fire_primary cosDeg sinDeg a w).1.cd_primary = cooldown_time_primary ∧
        (WeaponSystem.fire_primary cosDeg sinDeg a w).1.missile_count = w.missile_count ∧
        (WeaponSystem.fire_primary cosDeg sinDeg a w).1.laser_charge = w.laser_charge ∧
        (WeaponSystem.fire_primary cosDeg sinDeg a w).1.shield_energy = w.shield_energy ∧
        (1 ≤ w.primary_level →
          w.bullets.length < (WeaponSystem.fire_primary cosDeg sinDeg a w).1.bullets.length)) ∧
      (0 < w.cd_missile → WeaponSystem.fire_missile a w = (w, false)) ∧
      (w.cd_missile = 0 → 0 < w.missile_count →
        (WeaponSystem.fire_missile a w).2 = true ∧
        (WeaponSystem.fire_missile a w).1.cd_missile = cooldown_time_missile ∧
        (WeaponSystem.fire_missile a w).1.missile_count = w.missile_count - 1 ∧
        (WeaponSystem.fire_missile a w).1.missiles.length = w.missiles.length + 1) ∧
      (0 < w.cd_laser → WeaponSystem.fire_laser a w = (w, false)) ∧
      (w.cd_laser = 0 → 30 ≤ w.laser_charge →
        (WeaponSystem.fire_laser a w).2 = true ∧
        (WeaponSystem.fire_laser a w).1.cd_laser = cooldown_time_laser ∧
        (WeaponSystem.fire_laser a w).1.laser_charge = 0 ∧
        (WeaponSystem.fire_laser a w).1.lasers.length = w.lasers.length + 1) ∧
      (0 < w.cd_shield → WeaponSystem.activate_shield a w = (w, a, false)) ∧
      (w.cd_shield = 0 → 40 ≤ w.shield_energy →
        (WeaponSystem.activate_shield a w).2.2 = true ∧
        (WeaponSystem.activate_shield a w).1.cd_shield = cooldown_time_shield ∧
        (WeaponSystem.activate_shield a w).1.shield_energy = w.shield_energy - 40 ∧
        (WeaponSystem.activate_shield a w).2.1.shield_active = true) := by
  intro cosDeg sinDeg a w
  refine ⟨?_, ?_, ?_, ?_, ?_, ?_, ?_, ?_⟩
  · intro h
    simp only [WeaponSystem.fire_primary]
    rw [if_pos h]
  · intro h
    have h0 : ¬(0 < w.cd_primary) := by rw [h]; norm_num
    simp only [WeaponSystem.fire_primary]
    rw [if_neg h0]
    split_ifs with h1 h2 h3 <;>
      simp_all <;> omega
  · intro h
    simp only [WeaponSystem.fire_missile]
    rw [if_pos (Or.inl h)]
  · intro h hc
    have h0 : ¬(0 < w.cd_missile ∨ w.missile_count ≤ 0) := by
      push_neg
      exact ⟨by rw [h], hc⟩
    simp only [WeaponSystem.fire_missile]
    rw [if_neg h0]
    simp
  · intro h
    simp only [WeaponSystem.fire_laser]
    rw [if_pos (Or.inl h)]
  · intro h hc
    have h0 : ¬(0 < w.cd_laser ∨ w.laser_charge < 30) := by
      push_neg
      exact ⟨by rw [h], hc⟩
    simp only [WeaponSystem.fire_laser]
    rw [if_neg h0]
    simp
  · intro h
    simp only [WeaponSystem.activate_shield]
    rw [if_pos (Or.inl h)]
  · intro h hc
    have h0 : ¬(0 < w.cd_shield ∨ w.shield_energy < 40) := by
      push_neg
      exact ⟨by rw [h], hc⟩
    simp only [WeaponSystem.activate_shield]
    rw [if_neg h0]
    simp [Aircraft.activate_shield]

/-- Witness for C3: the freshly initialised weapon system (all cooldowns
0, 5 missiles, 50 shield energy) fires a missile successfully. -/
theorem c3_weapon_cooldown_gating_witness :
    (WeaponSystem.fire_missile Aircraft.init WeaponSystem.init).2 = true ∧
    (WeaponSystem.fire_missile Aircraft.init WeaponSystem.init).1.cd_missile =
      cooldown_time_missile ∧
    (WeaponSystem.fire_missile Aircraft.init WeaponSystem.init).1.missile_count =
      WeaponSystem.init.missile_count - 1 ∧
    (WeaponSystem.fire_missile Aircraft.init WeaponSystem.init).1.missiles.length =
      WeaponSystem.init.missiles.length + 1 :=
  (c3_weapon_cooldown_gating (fun _ => 0) (fun _ => 0) Aircraft.init
    WeaponSystem.init).2.2.2.1 rfl (by norm_num [WeaponSystem.init])

theorem invuln_step_health (s : AircraftState) (dt : ℚ) :
    (Aircraft.invuln_step s dt).health = s.health := by
  simp only [Aircraft.invuln_step]
  split_ifs <;> rfl

theorem invuln_step_fuel (s : AircraftState) (dt : ℚ) :
    (Aircraft.invuln_step s dt).fuel = s.fuel := by
  simp only [Aircraft.invuln_step]
  split_ifs <;> rfl

theorem invuln_step_thrust (s : AircraftState) (dt : ℚ) :
    (Aircraft.invuln_step s dt).thrust = s.thrust := by
  simp only [Aircraft.invuln_step]
  split_ifs <;> rfl

theorem invuln_step_max_health (s : AircraftState) (dt : ℚ) :
    (Aircraft.invuln_step s dt).max_health = s.max_health := by
  simp only [Aircraft.invuln_step]
  split_ifs <;> rfl

theorem invuln_step_max_fuel (s : AircraftState) (dt : ℚ) :
    (Aircraft.invuln_step s dt).max_fuel = s.max_fuel := by
  simp only [Aircraft.invuln_step]
  split_ifs <;> rfl

theorem invuln_step_shield_active (s : AircraftState) (dt : ℚ) :
    (Aircraft.invuln_step s dt).shield_active = s.shield_active := by
  simp only [Aircraft.invuln_step]
  split_ifs <;> rfl

theorem invuln_step_shield_duration (s : AircraftState) (dt : ℚ) :
    (Aircraft.invuln_step s dt).shield_duration = s.shield_duration := by
  simp only [Aircraft.invuln_step]
  split_ifs <;> rfl

theorem invuln_step_on_ground (s : AircraftState) (dt : ℚ) :
    (Aircraft.invuln_step s dt).on_ground = s.on_ground := by
  simp only [Aircraft.invuln_step]
  split_ifs <;> rfl

theorem invuln_step_expire (s : AircraftState) (dt : ℚ) (h1 : s.invulnerable = true)
    (h2 : s.invulnerable_timer ≤ dt) : (Aircraft.invuln_step s dt).invulnerable = false := by
  simp only [Aircraft.invuln_step]
  rw [if_pos h1, if_pos (by linarith : s.invulnerable_timer - dt ≤ 0)]

theorem shield_step_fst_invulnerable (s : AircraftState) (w : WeaponState) (dt : ℚ) :
    (Aircraft.shield_step s w dt).1.invulnerable = s.invulnerable := by
  simp only [Aircraft.shield_step]
  split_ifs <;> rfl

theorem shield_step_fst_health (s : AircraftState) (w : WeaponState) (dt : ℚ) :
    (Aircraft.shield_step s w dt).1.health = s.health := by
  simp only [Aircraft.shield_step]
  split_ifs <;> rfl

theorem shield_step_fst_fuel (s : AircraftState) (w : WeaponState) (dt : ℚ) :
    (Aircraft.shield_step s w dt).1.fuel = s.fuel := by
  simp only [Aircraft.shield_step]
  split_ifs <;> rfl

theorem shield_step_fst_thrust (s : AircraftState) (w : WeaponState) (dt : ℚ) :
    (Aircraft.shield_step s w dt).1.thrust = s.thrust := by
  simp only [Aircraft.shield_step]
  split_ifs <;> rfl

theorem shield_step_fst_max_health (s : AircraftState) (w : WeaponState) (dt : ℚ) :
    (Aircraft.shield_step s w dt).1.max_health = s.max_health := by
  simp only [Aircraft.shield_step]
  split_ifs <;> rfl

theorem shield_step_fst_max_fuel (s : AircraftState) (w : WeaponState) (dt : ℚ) :
    (Aircraft.shield_step s w dt).1.max_fuel = s.max_fuel := by
  simp only [Aircraft.shield_step]
  split_ifs <;> rfl

theorem shield_step_fst_on_ground (s : AircraftState) (w : WeaponState) (dt : ℚ) :
    (Aircraft.shield_step s w dt).1.on_ground = s.on_ground := by
  simp only [Aircraft.shield_step]
  split_ifs <;> rfl

theorem shield_step_snd (s : AircraftState) (w : WeaponState) (dt : ℚ) :
    (Aircraft.shield_step s w dt).2 =
      if s.shield_active = true then
        { w with shield_energy := max 0 (w.shield_energy - 3 * dt) }
      else w := by
  simp only [Aircraft.shield_step]
  split_ifs with h1 h2 <;> simp_all [clamp0_eq_max] <;> linarith

theorem fuel_step_invulnerable (s : AircraftState) (dt : ℚ) :
    (Aircraft.fuel_step s dt).invulnerable = s.invulnerable := by
  simp only [Aircraft.fuel_step]
  split_ifs <;> rfl

theorem fuel_step_health (s : AircraftState) (dt : ℚ) :
    (Aircraft.fuel_step s dt).health = s.health := by
  simp only [Aircraft.fuel_step]
  split_ifs <;> rfl

theorem fuel_step_max_health (s : AircraftState) (dt : ℚ) :
    (Aircraft.fuel_step s dt).max_health = s.max_health := by
  simp only [Aircraft.fuel_step]
  split_ifs <;> rfl

theorem fuel_step_max_fuel (s : AircraftState) (dt : ℚ) :
    (Aircraft.fuel_step s dt).max_fuel = s.max_fuel := by
  simp only [Aircraft.fuel_step]
  split_ifs <;> rfl

theorem fuel_step_shield_active (s : AircraftState) (dt : ℚ) :
    (Aircraft.fuel_step s dt).shield_active = s.shield_active := by
  simp only [Aircraft.fuel_step]
  split_ifs <;> rfl

theorem fuel_step_shield_duration (s : AircraftState) (dt : ℚ) :
    (Aircraft.fuel_step s dt).shield_duration = s.shield_duration := by
  simp only [Aircraft.fuel_step]
  split_ifs <;> rfl

theorem fuel_step_fuel_cases (s : AircraftState) (dt : ℚ) :
    (Aircraft.fuel_step s dt).fuel = s.fuel ∨
      (Aircraft.fuel_step s dt).fuel = max 0 (s.fuel - s.thrust * (1/200) * dt) := by
  simp only [Aircraft.fuel_step]
  split_ifs <;> simp

theorem update_invulnerable_expire (sinDeg : ℚ → ℚ) (s : AircraftState) (w : WeaponState)
    (dt : ℚ) (h1 : s.invulnerable = true) (h2 : s.invulnerable_timer ≤ dt) :
    (Aircraft.update sinDeg s w dt).1.invulnerable = false := by
  have hi := invuln_step_expire s dt h1 h2
  simp only [Aircraft.update]
  split_ifs with hog
  · rw [fuel_step_invulnerable, update_ground_physics_invulnerable,
      shield_step_fst_invulnerable, hi]
  · rw [fuel_step_invulnerable, update_air_physics_invulnerable,
      shield_step_fst_invulnerable, hi]

/-- Claim C4: take_damage is a no-op returning false while the
invulnerability flag is set; otherwise it subtracts from health with a
floor at 0, grants a 0.2 s invulnerability window, and returns true
exactly when health reached 0; and immediately after the invulnerability
timer expires (an update with dt at least the remaining timer), the next
hit reduces health again. -/
theorem c4_take_damage_contract :
    ∀ (sinDeg : ℚ → ℚ) (s : AircraftState) (w : WeaponState) (amount dt : ℚ),
      (s.invulnerable = true → Aircraft.take_damage s amount = (s, false)) ∧
      (s.invulnerable = false →
        (Aircraft.take_damage s amount).1.health = max 0 (s.health - amount) ∧
        (Aircraft.take_damage s amount).1.invulnerable = true ∧
        (Aircraft.take_damage s amount).1.invulnerable_timer = 1/5 ∧
        ((Aircraft.take_damage s amount).2 = true ↔ s.health - amount ≤ 0)) ∧
      (s.invulnerable = true → s.invulnerable_timer ≤ dt →
        (Aircraft.update sinDeg s w dt).1.invulnerable = false ∧
        (0 < amount → 0 < (Aircraft.update sinDeg s w dt).1.health →
          (Aircraft.take_damage (Aircraft.update sinDeg s w dt).1 amount).1.health <
            (Aircraft.update sinDeg s w dt).1.health)) := by
  intro sinDeg s w amount dt
  refine ⟨?_, ?_, ?_⟩
  · intro h
    simp only [Aircraft.take_damage]
    rw [if_pos h]
  · intro h
    have h0 : ¬s.invulnerable = true := by rw [h]; exact Bool.false_ne_true
    simp only [Aircraft.take_damage]
    rw [if_neg h0]
    refine ⟨by rw [clamp0_eq_max], rfl, rfl, ?_⟩
    simp only [decide_eq_true_eq, clamp0_eq_max]
    constructor
    · intro hle
      by_contra hgt
      push_neg at hgt
      have : (0:ℚ) < max 0 (s.health - amount) := lt_max_of_lt_right hgt
      linarith
    · intro hle
      simp [max_eq_left, hle]
  · intro h1 h2
    have hinv := update_invulnerable_expire sinDeg s w dt h1 h2
    refine ⟨hinv, ?_⟩
    intro ha hh
    have h0 : ¬(Aircraft.update sinDeg s w dt).1.invulnerable = true := by
      rw [hinv]
      exact Bool.false_ne_true
    simp only [Aircraft.take_damage]
    rw [if_neg h0]
    simp only [clamp0_eq_max]
    rw [max_lt_iff]
    exact ⟨hh, by linarith⟩

/-- Witness for C4: the freshly initialised aircraft (not invulnerable,
health 100) hit for 30 ends at health 70 with a 0.2 s window. -/
theorem c4_take_damage_contract_witness :
    (Aircraft.take_damage Aircraft.init 30).1.health = max 0 (Aircraft.init.health - 30) ∧
    (Aircraft.take_damage Aircraft.init 30).1.invulnerable = true ∧
    (Aircraft.take_damage Aircraft.init 30).1.invulnerable_timer = 1/5 ∧
    ((Aircraft.take_damage Aircraft.init 30).2 = true ↔ Aircraft.init.health - 30 ≤ 0) :=
  (c4_take_damage_contract (fun _ => 0) Aircraft.init WeaponSystem.init 30 1).2.1 rfl


/-- Claim C5: for every boss and every damage amount, Boss.take_damage
invoked while the phase-transition timer is positive returns false and
leaves the whole boss state — in particular health and active —
unchanged; Boss.update never changes health, so a boss's health never
decreases during a phase-transition invulnerability window. -/
theorem c5_boss_phase_transition_invulnerable :
    ∀ (b : Boss) (amount : ℚ) (sinR : ℚ → ℚ)
      (attack : ℚ → Boss → Vec2 → ℚ × List EnemyProjectile) (dt : ℚ) (player_pos : Vec2),
      (0 < b.phase_transition_timer → Boss.take_damage b amount = (b, false)) ∧
      (Boss.update sinR attack b dt player_pos).1.health = b.health := by
  intro b amount sinR attack dt player_pos
  constructor
  · intro h
    simp only [Boss.take_damage]
    rw [if_pos h]
  · simp only [Boss.update]
    split_ifs <;> simp_all [Boss.update_movement]

/-- Witness for C5: a freshly spawned hive queen two seconds into a phase
transition rejects a 999 damage hit. -/
theorem c5_boss_phase_transition_invulnerable_witness :
    Boss.take_damage { Boss.init ⟨900, 300⟩ .hive_queen with phase_transition_timer := 2 } 999 =
      ({ Boss.init ⟨900, 300⟩ .hive_queen with phase_transition_timer := 2 }, false) :=
  (c5_boss_phase_transition_invulnerable
    { Boss.init ⟨900, 300⟩ .hive_queen with phase_transition_timer := 2 } 999
    (fun _ => 0) (fun _ _ _ => (0, [])) 1 ⟨0, 0⟩).1 (by norm_num)

/-- Counterexample to claim C6 as stated: enemy health is not clamped to
[0, max] on damage — a fresh drone (health 30) hit for 31 ends at health
-1, violating 0 ≤ health. -/
theorem c6_counterexample :
    ¬(0 ≤ (Enemy.take_damage (Enemy.init ⟨850, 150⟩ .drone) 31).1.health) := by
  norm_num [Enemy.take_damage, Enemy.init, Enemy.stats]

/-- Claim C6, amended: the aircraft's operations (take_damage, heal,
add_fuel, and update with nonnegative dt and thrust) keep 0 ≤ health ≤
max_health and 0 ≤ fuel ≤ max_fuel; enemy and boss take_damage keep
health ≤ max_health and keep health strictly positive while the entity
remains active, but do not clamp health at 0 — an overkill hit leaves the
(simultaneously deactivated) entity with negative health. -/
theorem c6_health_fuel_bounds :
    ∀ (sinDeg : ℚ → ℚ) (s : AircraftState) (w : WeaponState) (e : Enemy) (b : Boss)
      (amount dt : ℚ),
      (0 ≤ amount → 0 ≤ s.health → s.health ≤ s.max_health →
        0 ≤ (Aircraft.take_damage s amount).1.health ∧
        (Aircraft.take_damage s amount).1.health ≤ s.max_health) ∧
      (0 ≤ amount → 0 ≤ s.health → s.health ≤ s.max_health →
        0 ≤ (Aircraft.heal s amount).health ∧ (Aircraft.heal s amount).health ≤ s.max_health) ∧
      (0 ≤ amount → 0 ≤ s.fuel → s.fuel ≤ s.max_fuel →
        0 ≤ (Aircraft.add_fuel s amount).fuel ∧ (Aircraft.add_fuel s amount).fuel ≤ s.max_fuel) ∧
      (0 ≤ dt → 0 ≤ s.thrust → 0 ≤ s.max_health → 0 ≤ s.health → s.health ≤ s.max_health →
        0 ≤ s.fuel → s.fuel ≤ s.max_fuel →
        (0 ≤ (Aircraft.update sinDeg s w dt).1.health ∧
         (Aircraft.update sinDeg s w dt).1.health ≤ s.max_health ∧
         0 ≤ (Aircraft.update sinDeg s w dt).1.fuel ∧
         (Aircraft.update sinDeg s w dt).1.fuel ≤ s.max_fuel)) ∧
      (0 ≤ amount → 0 < e.health → e.health ≤ e.max_health →
        (Enemy.take_damage e amount).1.health ≤ e.max_health ∧
        ((Enemy.take_damage e amount).1.active = true →
          0 < (Enemy.take_damage e amount).1.health)) ∧
      (0 ≤ amount → 0 < b.health → b.health ≤ b.max_health →
        (Boss.take_damage b amount).1.health ≤ b.max_health ∧
        ((Boss.take_damage b amount).1.active = true →
          0 < (Boss.take_damage b amount).1.health)) := by
  intro sinDeg s w e b amount dt
  refine ⟨?_, ?_, ?_, ?_, ?_, ?_⟩
  · intro ha h0 h1
    simp only [Aircraft.take_damage]
    split_ifs with hv hc
    · exact ⟨h0, h1⟩
    · constructor <;> simp <;> linarith
    · constructor <;> simp <;> linarith
  · intro ha h0 h1
    simp only [Aircraft.heal]
    exact ⟨le_min (by linarith) (by linarith), min_le_left _ _⟩
  · intro ha h0 h1
    simp only [Aircraft.add_fuel]
    exact ⟨le_min (by linarith) (by linarith), min_le_left _ _⟩
  · intro hdt hth hmh h0 h1 hf0 hf1
    have hx : 0 ≤ s.thrust * (1/200) * dt := mul_nonneg (mul_nonneg hth (by norm_num)) hdt
    have hs2h : (Aircraft.shield_step (Aircraft.invuln_step s dt) w dt).1.health = s.health := by
      rw [shield_step_fst_health, invuln_step_health]
    have hs2f : (Aircraft.shield_step (Aircraft.invuln_step s dt) w dt).1.fuel = s.fuel := by
      rw [shield_step_fst_fuel, invuln_step_fuel]
    have hs2t : (Aircraft.shield_step (Aircraft.invuln_step s dt) w dt).1.thrust = s.thrust := by
      rw [shield_step_fst_thrust, invuln_step_thrust]
    have key : (Aircraft.update sinDeg s w dt).1 =
        Aircraft.fuel_step
          (if (Aircraft.shield_step (Aircraft.invuln_step s dt) w dt).1.on_ground = true then
            Aircraft.update_ground_physics
              (Aircraft.shield_step (Aircraft.invuln_step s dt) w dt).1 dt
          else
            Aircraft.update_air_physics sinDeg
              (Aircraft.shield_step (Aircraft.invuln_step s dt) w dt).1 dt) dt := rfl
    rw [key]
    split_ifs with hog
    · have hh : (Aircraft.fuel_step (Aircraft.update_ground_physics
          (Aircraft.shield_step (Aircraft.invuln_step s dt) w dt).1 dt) dt).health = s.health := by
        rw [fuel_step_health, update_ground_physics_health, hs2h]
      refine ⟨by rw [hh]; exact h0, by rw [hh]; exact h1, ?_⟩
      rcases fuel_step_fuel_cases (Aircraft.update_ground_physics
          (Aircraft.shield_step (Aircraft.invuln_step s dt) w dt).1 dt) dt with hf | hf
      · rw [update_ground_physics_fuel, hs2f] at hf
        exact ⟨by rw [hf]; exact hf0, by rw [hf]; exact hf1⟩
      · rw [update_ground_physics_fuel, update_ground_physics_thrust, hs2f, hs2t] at hf
        refine ⟨by rw [hf]; exact le_max_left 0 _, ?_⟩
        rw [hf, max_le_iff]
        constructor <;> linarith
    · have hh := update_air_physics_health sinDeg
        (Aircraft.shield_step (Aircraft.invuln_step s dt) w dt).1 dt
      rw [hs2h] at hh
      have hhf : (Aircraft.fuel_step (Aircraft.update_air_physics sinDeg
          (Aircraft.shield_step (Aircraft.invuln_step s dt) w dt).1 dt) dt).health =
          (Aircraft.update_air_physics sinDeg
            (Aircraft.shield_step (Aircraft.invuln_step s dt) w dt).1 dt).health :=
        fuel_step_health _ dt
      have hhok : 0 ≤ (Aircraft.fuel_step (Aircraft.update_air_physics sinDeg
            (Aircraft.shield_step (Aircraft.invuln_step s dt) w dt).1 dt) dt).health ∧
          (Aircraft.fuel_step (Aircraft.update_air_physics sinDeg
            (Aircraft.shield_step (Aircraft.invuln_step s dt) w dt).1 dt) dt).health ≤
            s.max_health := by
        rcases hh with hh | hh
        · exact ⟨by rw [hhf, hh]; exact h0, by rw [hhf, hh]; exact h1⟩
        · exact ⟨by rw [hhf, hh], by rw [hhf, hh]; exact hmh⟩
      refine ⟨hhok.1, hhok.2, ?_⟩
      rcases fuel_step_fuel_cases (Aircraft.update_air_physics sinDeg
          (Aircraft.shield_step (Aircraft.invuln_step s dt) w dt).1 dt) dt with hf | hf
      · rw [update_air_physics_fuel, hs2f] at hf
        exact ⟨by rw [hf]; exact hf0, by rw [hf]; exact hf1⟩
      · rw [update_air_physics_fuel, update_air_physics_thrust, hs2f, hs2t] at hf
        refine ⟨by rw [hf]; exact le_max_left 0 _, ?_⟩
        rw [hf, max_le_iff]
        constructor <;> linarith
  · intro ha h0 h1
    simp only [Enemy.take_damage]
    split_ifs with hd
    · exact ⟨by simp; linarith, by simp⟩
    · exact ⟨by simp; linarith, fun _ => by simpa using not_le.mp hd⟩
  · intro ha h0 h1
    simp only [Boss.take_damage]
    split_ifs with hp hd
    · exact ⟨h1, fun _ => h0⟩
    · exact ⟨by simp; linarith, by simp⟩
    · exact ⟨by simp; linarith, fun _ => by simpa using not_le.mp hd⟩

/-- Witness for C6 (amended) at the initial aircraft, a fresh drone and a
fresh hive queen, with damage 10 and dt 1. -/
theorem c6_health_fuel_bounds_witness :
    0 ≤ (Aircraft.take_damage Aircraft.init 10).1.health ∧
    (Aircraft.take_damage Aircraft.init 10).1.health ≤ Aircraft.init.max_health :=
  (c6_health_fuel_bounds (fun _ => 0) Aircraft.init WeaponSystem.init
      (Enemy.init ⟨850, 150⟩ .drone) (Boss.init ⟨900, 300⟩ .hive_queen) 10 1).1
    (by norm_num) (by norm_num [Aircraft.init]) (by norm_num [Aircraft.init])

theorem start_first_wave_fst_level_complete (lm : LevelManagerState) (em : EnemyManagerState)
    (ld : LevelData) :
    (LevelManager.start_first_wave lm em ld).1.level_complete = lm.level_complete := by
  simp only [LevelManager.start_first_wave]
  split_ifs with h <;> cases hw : ld.waves[lm.current_wave]? <;> simp [hw]

theorem start_first_wave_fst_current_wave (lm : LevelManagerState) (em : EnemyManagerState)
    (ld : LevelData) :
    (LevelManager.start_first_wave lm em ld).1.current_wave = lm.current_wave := by
  simp only [LevelManager.start_first_wave]
  split_ifs with h <;> cases hw : ld.waves[lm.current_wave]? <;> simp [hw]

theorem start_first_wave_snd_boss_defeated (lm : LevelManagerState) (em : EnemyManagerState)
    (ld : LevelData) :
    (LevelManager.start_first_wave lm em ld).2.boss_defeated = em.boss_defeated := by
  simp only [LevelManager.start_first_wave]
  split_ifs with h <;> cases hw : ld.waves[lm.current_wave]? <;>
    simp [hw, LevelManager.start_wave, EnemyManager.set_spawn_queue]

theorem start_first_wave_snd_boss (lm : LevelManagerState) (em : EnemyManagerState)
    (ld : LevelData) :
    (LevelManager.start_first_wave lm em ld).2.boss = em.boss := by
  simp only [LevelManager.start_first_wave]
  split_ifs with h <;> cases hw : ld.waves[lm.current_wave]? <;>
    simp [hw, LevelManager.start_wave, EnemyManager.set_spawn_queue]

theorem progress_spec (lm : LevelManagerState) (em : EnemyManagerState) (ld : LevelData)
    (hbd : em.boss_defeated = none) :
    (LevelManager.progress lm em ld).1.level_complete = lm.level_complete ∧
    (LevelManager.progress lm em ld).2.boss_defeated = none := by
  simp only [LevelManager.progress]
  split_ifs with h1 h2 h3
  · exact ⟨rfl, hbd⟩
  · rw [hbd] at h3
    exact absurd h3.2 (by simp)
  · exact ⟨rfl, hbd⟩
  · cases hw : ld.waves[lm.current_wave + 1]? <;>
      simp [hw, hbd, LevelManager.start_wave, EnemyManager.set_spawn_queue]
  · exact ⟨rfl, hbd⟩

theorem progress_spawns_boss (lm : LevelManagerState) (em : EnemyManagerState) (ld : LevelData)
    (hb : em.boss = none) (hbd : em.boss_defeated = none)
    (hw : ld.waves.length ≤ lm.current_wave) :
    (LevelManager.progress lm em ld).2.boss = some (Boss.init ⟨900, 300⟩ ld.boss) ∧
    (LevelManager.progress lm em ld).2.enemies = [] := by
  simp only [LevelManager.progress]
  rw [if_pos hw, if_pos ⟨hb, hbd⟩]
  exact ⟨rfl, rfl⟩

theorem em_update_boss_defeated
    (behave : ℚ → Enemy → Vec2 → Enemy × List EnemyProjectile)
    (sinR : ℚ → ℚ) (attack : ℚ → Boss → Vec2 → ℚ × List EnemyProjectile)
    (atan2Deg : ℚ → ℚ → ℚ) (cosDeg sinDeg : ℚ → ℚ)
    (em : EnemyManagerState) (dt : ℚ) (p : Vec2) (ms : List HomingMissile) :
    (EnemyManager.update behave sinR attack atan2Deg cosDeg sinDeg em dt p ms).1.boss_defeated
      = em.boss_defeated := by
  simp only [EnemyManager.update]
  cases hq : em.spawn_queue <;> simp only [hq]
  · cases hb : em.boss <;> simp [hb]
  · split_ifs <;> cases hb : em.boss <;> simp [hb]

theorem level_update_after_takeoff (lm : LevelManagerState) (dt : ℚ) (a : AircraftState)
    (em : EnemyManagerState) (hto : a.has_taken_off = true) :
    LevelManager.update lm dt a em =
      LevelManager.progress
        (LevelManager.start_first_wave
          { lm with scroll_x := lm.scroll_x + lm.scroll_speed * dt * 60 } em
          (LevelManager.get_level_data lm.current_level)).1
        (LevelManager.start_first_wave
          { lm with scroll_x := lm.scroll_x + lm.scroll_speed * dt * 60 } em
          (LevelManager.get_level_data lm.current_level)).2
        (LevelManager.get_level_data lm.current_level) := by
  simp only [LevelManager.update, hto]
  simp

/-- Claim C7 (refuted by the code): the `boss_defeated` attribute probed
by LevelManager.update is never created anywhere in the program, so the
branch that would set `level_complete` is unreachable: starting from the
initial enemy manager, every update preserves `boss_defeated = none` and
leaves `level_complete` unchanged (false since load_level); and whenever
the waves are exhausted and the boss slot is empty — exactly the state
reached right after a boss is destroyed — the update spawns a fresh boss
(clearing regular enemies) instead of completing the level. -/
theorem c7_level_complete_unreachable :
    (EnemyManager.init.boss_defeated = none ∧
      (∀ (lm : LevelManagerState) (n : ℕ),
        (LevelManager.load_level lm n).level_complete = false)) ∧
    (∀ (lm : LevelManagerState) (dt : ℚ) (a : AircraftState) (em : EnemyManagerState),
      em.boss_defeated = none →
      (LevelManager.update lm dt a em).1.level_complete = lm.level_complete ∧
      (LevelManager.update lm dt a em).2.boss_defeated = none) ∧
    (∀ (behave : ℚ → Enemy → Vec2 → Enemy × List EnemyProjectile) (sinR : ℚ → ℚ)
      (attack : ℚ → Boss → Vec2 → ℚ × List EnemyProjectile) (atan2Deg : ℚ → ℚ → ℚ)
      (cosDeg sinDeg : ℚ → ℚ) (em : EnemyManagerState) (dt : ℚ) (p : Vec2)
      (ms : List HomingMissile),
      (EnemyManager.update behave sinR attack atan2Deg cosDeg sinDeg em dt p ms).1.boss_defeated
        = em.boss_defeated) ∧
    (∀ (lm : LevelManagerState) (dt : ℚ) (a : AircraftState) (em : EnemyManagerState),
      a.has_taken_off = true → em.boss = none → em.boss_defeated = none →
      (LevelManager.get_level_data lm.current_level).waves.length ≤ lm.current_wave →
      ((LevelManager.update lm dt a em).2.boss).isSome = true ∧
      (LevelManager.update lm dt a em).2.enemies = [] ∧
      (LevelManager.update lm dt a em).1.level_complete = lm.level_complete) := by
  refine ⟨⟨rfl, fun lm n => rfl⟩, ?_, ?_, ?_⟩
  · intro lm dt a em hbd
    by_cases hto : a.has_taken_off = true
    · rw [level_update_after_takeoff lm dt a em hto]
      have hbd2 : (LevelManager.start_first_wave
          { lm with scroll_x := lm.scroll_x + lm.scroll_speed * dt * 60 } em
          (LevelManager.get_level_data lm.current_level)).2.boss_defeated = none := by
        rw [start_first_wave_snd_boss_defeated]
        exact hbd
      have hp := progress_spec (LevelManager.start_first_wave
          { lm with scroll_x := lm.scroll_x + lm.scroll_speed * dt * 60 } em
          (LevelManager.get_level_data lm.current_level)).1 (LevelManager.start_first_wave
          { lm with scroll_x := lm.scroll_x + lm.scroll_speed * dt * 60 } em
          (LevelManager.get_level_data lm.current_level)).2
        (LevelManager.get_level_data lm.current_level) hbd2
      refine ⟨?_, hp.2⟩
      rw [hp.1, start_first_wave_fst_level_complete]
    · simp only [LevelManager.update, hto]
      simp [hbd]
  · intro behave sinR attack atan2Deg cosDeg sinDeg em dt p ms
    exact em_update_boss_defeated behave sinR attack atan2Deg cosDeg sinDeg em dt p ms
  · intro lm dt a em hto hb hbd hw
    rw [level_update_after_takeoff lm dt a em hto]
    have hbd2 : (LevelManager.start_first_wave
        { lm with scroll_x := lm.scroll_x + lm.scroll_speed * dt * 60 } em
        (LevelManager.get_level_data lm.current_level)).2.boss_defeated = none := by
      rw [start_first_wave_snd_boss_defeated]
      exact hbd
    have hb2 : (LevelManager.start_first_wave
        { lm with scroll_x := lm.scroll_x + lm.scroll_speed * dt * 60 } em
        (LevelManager.get_level_data lm.current_level)).2.boss = none := by
      rw [start_first_wave_snd_boss]
      exact hb
    have hw2 : (LevelManager.get_level_data lm.current_level).waves.length ≤
        (LevelManager.start_first_wave
          { lm with scroll_x := lm.scroll_x + lm.scroll_speed * dt * 60 } em
          (LevelManager.get_level_data lm.current_level)).1.current_wave := by
      rw [start_first_wave_fst_current_wave]
      exact hw
    have hs := progress_spawns_boss (LevelManager.start_first_wave
          { lm with scroll_x := lm.scroll_x + lm.scroll_speed * dt * 60 } em
          (LevelManager.get_level_data lm.current_level)).1 (LevelManager.start_first_wave
          { lm with scroll_x := lm.scroll_x + lm.scroll_speed * dt * 60 } em
          (LevelManager.get_level_data lm.current_level)).2
      (LevelManager.get_level_data lm.current_level) hb2 hbd2 hw2
    have hp := progress_spec (LevelManager.start_first_wave
          { lm with scroll_x := lm.scroll_x + lm.scroll_speed * dt * 60 } em
          (LevelManager.get_level_data lm.current_level)).1 (LevelManager.start_first_wave
          { lm with scroll_x := lm.scroll_x + lm.scroll_speed * dt * 60 } em
          (LevelManager.get_level_data lm.current_level)).2
      (LevelManager.get_level_data lm.current_level) hbd2
    refine ⟨?_, hs.2, ?_⟩
    · rw [hs.1]
      rfl
    · rw [hp.1, start_first_wave_fst_level_complete]

/-- Witness for C7: from a state with all of level 1's waves exhausted,
the boss just destroyed (boss slot empty) and `boss_defeated` absent, the
update respawns a hive queen and leaves level_complete untouched. -/
theorem c7_level_complete_unreachable_witness :
    (((LevelManager.update
        { LevelManager.init 1 with current_wave := 5, waves_started := true } 1
        { Aircraft.init with has_taken_off := true } EnemyManager.init).2.boss).isSome = true) ∧
    ((LevelManager.update
        { LevelManager.init 1 with current_wave := 5, waves_started := true } 1
        { Aircraft.init with has_taken_off := true } EnemyManager.init).2.enemies = []) ∧
    ((LevelManager.update
        { LevelManager.init 1 with current_wave := 5, waves_started := true } 1
        { Aircraft.init with has_taken_off := true } EnemyManager.init).1.level_complete =
      { LevelManager.init 1 with current_wave := 5, waves_started := true }.level_complete) :=
  c7_level_complete_unreachable.2.2.2
    { LevelManager.init 1 with current_wave := 5, waves_started := true } 1
    { Aircraft.init with has_taken_off := true } EnemyManager.init
    rfl rfl rfl
    (by norm_num [LevelManager.init, LevelManager.load_level, LevelManager.get_level_data,
      LevelManager.level_1_data])

theorem normAngle_eq_self (d : ℚ) (h1 : -180 ≤ d) (h2 : d ≤ 180) : normAngle d = d := by
  simp only [normAngle]
  rw [if_neg (by linarith), if_neg (by linarith)]

theorem normAngle_zero : normAngle 0 = 0 :=
  normAngle_eq_self 0 (by norm_num) (by norm_num)

theorem retarget_target_kept (m : HomingMissile) (enemies : List Target) (t : Target)
    (h : m.target = some t) (ha : t.active = true) :
    (HomingMissile.retarget m enemies).target = m.target := by
  simp [HomingMissile.retarget, h, ha]

theorem retarget_reacquire (m : HomingMissile) (enemies : List Target)
    (h : m.target = none ∨ ∃ t, m.target = some t ∧ t.active = false) :
    (HomingMissile.retarget m enemies).target =
      HomingMissile.find_nearest_enemy enemies m.position := by
  rcases h with h | ⟨t, h, ha⟩
  · simp [HomingMissile.retarget, h]
  · simp [HomingMissile.retarget, h, ha]

theorem retarget_angle (m : HomingMissile) (enemies : List Target) :
    (HomingMissile.retarget m enemies).angle = m.angle := by
  cases htg : m.target <;> simp only [HomingMissile.retarget, htg] <;>
    first
      | rfl
      | (split_ifs <;> rfl)

theorem retarget_position (m : HomingMissile) (enemies : List Target) :
    (HomingMissile.retarget m enemies).position = m.position := by
  cases htg : m.target <;> simp only [HomingMissile.retarget, htg] <;>
    first
      | rfl
      | (split_ifs <;> rfl)

theorem steer_target (atan2Deg : ℚ → ℚ → ℚ) (m : HomingMissile) :
    (HomingMissile.steer atan2Deg m).target = m.target := by
  cases htg : m.target <;> simp only [HomingMissile.steer, htg] <;>
    first
      | rfl
      | (split_ifs <;> first | rfl | (exact htg.symm) | (exact htg))

theorem steer_position (atan2Deg : ℚ → ℚ → ℚ) (m : HomingMissile) :
    (HomingMissile.steer atan2Deg m).position = m.position := by
  cases htg : m.target <;> simp only [HomingMissile.steer, htg] <;>
    first
      | rfl
      | (split_ifs <;> rfl)

theorem steer_angle_bound (atan2Deg : ℚ → ℚ → ℚ) (m : HomingMissile) :
    |normAngle ((HomingMissile.steer atan2Deg m).angle - m.angle)| ≤
      HomingMissile.turn_rate := by
  have hself : |normAngle (m.angle - m.angle)| ≤ HomingMissile.turn_rate := by
    rw [sub_self, normAngle_zero]
    norm_num [HomingMissile.turn_rate]
  cases htg : m.target
  · simpa [HomingMissile.steer, htg] using hself
  · simp only [HomingMissile.steer, htg]
    split_ifs with ha hd hsnap hpos
    · exact le_of_lt hsnap
    · have h3 : m.angle + HomingMissile.turn_rate - m.angle = HomingMissile.turn_rate := by
        ring
      show |normAngle (m.angle + HomingMissile.turn_rate - m.angle)| ≤ HomingMissile.turn_rate
      rw [h3, normAngle_eq_self HomingMissile.turn_rate
        (by norm_num [HomingMissile.turn_rate]) (by norm_num [HomingMissile.turn_rate])]
      norm_num [HomingMissile.turn_rate]
    · have h3 : m.angle + -HomingMissile.turn_rate - m.angle = -HomingMissile.turn_rate := by
        ring
      show |normAngle (m.angle + -HomingMissile.turn_rate - m.angle)| ≤ HomingMissile.turn_rate
      rw [h3, normAngle_eq_self (-HomingMissile.turn_rate)
        (by norm_num [HomingMissile.turn_rate]) (by norm_num [HomingMissile.turn_rate])]
      norm_num [HomingMissile.turn_rate]
    · exact hself
    · exact hself

theorem fly_target (cosDeg sinDeg : ℚ → ℚ) (m : HomingMissile) (dt : ℚ) :
    (HomingMissile.fly cosDeg sinDeg m dt).target = m.target := by
  simp only [HomingMissile.fly]
  split_ifs <;> rfl

theorem fly_angle (cosDeg sinDeg : ℚ → ℚ) (m : HomingMissile) (dt : ℚ) :
    (HomingMissile.fly cosDeg sinDeg m dt).angle = m.angle := by
  simp only [HomingMissile.fly]
  split_ifs <;> rfl

theorem fly_velocity (cosDeg sinDeg : ℚ → ℚ) (m : HomingMissile) (dt : ℚ) :
    (HomingMissile.fly cosDeg sinDeg m dt).velocity =
      ⟨cosDeg m.angle * 12, -(sinDeg m.angle) * 12⟩ := by
  simp only [HomingMissile.fly]
  split_ifs <;> rfl

theorem fly_position (cosDeg sinDeg : ℚ → ℚ) (m : HomingMissile) (dt : ℚ) :
    (HomingMissile.fly cosDeg sinDeg m dt).position =
      m.position + (Vec2.mk (cosDeg m.angle * 12) (-(sinDeg m.angle) * 12)).scale (dt * 60) := by
  simp only [HomingMissile.fly]
  split_ifs <;> rfl

theorem missile_update_alive (atan2Deg : ℚ → ℚ → ℚ) (cosDeg sinDeg : ℚ → ℚ)
    (m : HomingMissile) (dt : ℚ) (enemies : List Target)
    (hlt : ¬(m.lifetime - dt ≤ 0)) :
    HomingMissile.update atan2Deg cosDeg sinDeg m dt enemies =
      HomingMissile.fly cosDeg sinDeg
        (HomingMissile.steer atan2Deg
          (HomingMissile.retarget { m with lifetime := m.lifetime - dt } enemies)) dt := by
  simp only [HomingMissile.update]
  rw [if_neg hlt]

/-- Counterexample to claim C8 as stated: a missile does not re-acquire
the nearest active target each tick.  A missile at the origin holding a
live target at distance 300 keeps it through an update even though
another active enemy sits at distance 10; the nearest active enemy is the
closer one, and the two differ. -/
theorem c8_counterexample :
    (HomingMissile.update (fun _ _ => 0) (fun _ => 0) (fun _ => 0)
        { HomingMissile.init ⟨0, 0⟩ with target := some (Target.mk ⟨300, 0⟩ true) } 1
        [Target.mk ⟨300, 0⟩ true, Target.mk ⟨10, 0⟩ true]).target =
      some (Target.mk ⟨300, 0⟩ true) ∧
    HomingMissile.find_nearest_enemy
        [Target.mk ⟨300, 0⟩ true, Target.mk ⟨10, 0⟩ true] ⟨0, 0⟩ =
      some (Target.mk ⟨10, 0⟩ true) ∧
    Target.mk (⟨300, 0⟩ : Vec2) true ≠ Target.mk (⟨10, 0⟩ : Vec2) true := by
  refine ⟨?_, by norm_num [HomingMissile.find_nearest_enemy, dist2], by decide⟩
  rw [missile_update_alive _ _ _ _ _ _ (by norm_num [HomingMissile.init]),
    fly_target, steer_target, retarget_target_kept _ _ (Target.mk ⟨300, 0⟩ true) rfl rfl]

/-- Claim C8, amended: on an update that the missile survives, it keeps
its current target while that target is still active and re-acquires the
nearest active enemy only when it has no target or its target has become
inactive; it turns toward the target by at most the fixed turn rate (3°,
measured mod 360) per tick, and flies at speed 12 along its new heading
(velocity is 12 times the heading direction vector, and the position
advances by that velocity times dt·60). -/
theorem c8_missile_homing :
    ∀ (atan2Deg : ℚ → ℚ → ℚ) (cosDeg sinDeg : ℚ → ℚ) (m : HomingMissile) (dt : ℚ)
      (enemies : List Target),
      0 < m.lifetime - dt →
      (∀ t, m.target = some t → t.active = true →
        (HomingMissile.update atan2Deg cosDeg sinDeg m dt enemies).target = some t) ∧
      ((m.target = none ∨ ∃ t, m.target = some t ∧ t.active = false) →
        (HomingMissile.update atan2Deg cosDeg sinDeg m dt enemies).target =
          HomingMissile.find_nearest_enemy enemies m.position) ∧
      |normAngle ((HomingMissile.update atan2Deg cosDeg sinDeg m dt enemies).angle - m.angle)|
        ≤ HomingMissile.turn_rate ∧
      (HomingMissile.update atan2Deg cosDeg sinDeg m dt enemies).velocity =
        ⟨cosDeg ((HomingMissile.update atan2Deg cosDeg sinDeg m dt enemies).angle) * 12,
         -(sinDeg ((HomingMissile.update atan2Deg cosDeg sinDeg m dt enemies).angle)) * 12⟩ ∧
      (HomingMissile.update atan2Deg cosDeg sinDeg m dt enemies).position =
        m.position +
          ((HomingMissile.update atan2Deg cosDeg sinDeg m dt enemies).velocity).scale
            (dt * 60) := by
  intro atan2Deg cosDeg sinDeg m dt enemies hlt
  have hlt' : ¬(m.lifetime - dt ≤ 0) := by linarith
  have key := missile_update_alive atan2Deg cosDeg sinDeg m dt enemies hlt'
  refine ⟨?_, ?_, ?_, ?_, ?_⟩
  · intro t h ha
    rw [key, fly_target, steer_target,
      retarget_target_kept { m with lifetime := m.lifetime - dt } enemies t h ha]
    exact h
  · intro h
    rw [key, fly_target, steer_target]
    exact retarget_reacquire { m with lifetime := m.lifetime - dt } enemies h
  · rw [key, fly_angle]
    have hb := steer_angle_bound atan2Deg
      (HomingMissile.retarget { m with lifetime := m.lifetime - dt } enemies)
    rwa [retarget_angle] at hb
  · rw [key, fly_velocity, fly_angle]
  · rw [key, fly_position, fly_velocity, steer_position, retarget_position]

/-- Witness for C8 (amended) at a fresh missile with no target, dt 1/60
and no enemies. -/
theorem c8_missile_homing_witness :
    (HomingMissile.update (fun _ _ => 0) (fun _ => 0) (fun _ => 0)
        (HomingMissile.init ⟨0, 0⟩) (1/60) []).target =
      HomingMissile.find_nearest_enemy [] (HomingMissile.init ⟨0, 0⟩).position :=
  ((c8_missile_homing (fun _ _ => 0) (fun _ => 0) (fun _ => 0)
      (HomingMissile.init ⟨0, 0⟩) (1/60) []
      (by norm_num [HomingMissile.init])).2.1) (Or.inl rfl)

theorem shield_step_fst_shield_active_iff (s : AircraftState) (w : WeaponState) (dt : ℚ)
    (h : s.shield_active = true) :
    ((Aircraft.shield_step s w dt).1.shield_active = true ↔
      (0 < s.shield_duration - dt ∧ 0 < max 0 (w.shield_energy - 3 * dt))) := by
  simp only [Aircraft.shield_step, clamp0_eq_max]
  rw [if_pos h]
  by_cases hd : s.shield_duration - dt ≤ 0 ∨ max 0 (w.shield_energy - 3 * dt) ≤ 0
  · rw [if_pos hd]
    simp only [Bool.false_eq_true, false_iff]
    intro hcon
    rcases hd with hd | hd <;> linarith [hcon.1, hcon.2]
  · rw [if_neg hd]
    push_neg at hd
    simp only [h, true_iff]
    exact ⟨by linarith [hd.1], by linarith [hd.2]⟩

theorem update_snd_shield_energy (sinDeg : ℚ → ℚ) (s : AircraftState) (w : WeaponState)
    (dt : ℚ) (h : s.shield_active = true) :
    (Aircraft.update sinDeg s w dt).2.shield_energy = max 0 (w.shield_energy - 3 * dt) := by
  have h1 : (Aircraft.update sinDeg s w dt).2 =
      (Aircraft.shield_step (Aircraft.invuln_step s dt) w dt).2 := rfl
  have hsa : (Aircraft.invuln_step s dt).shield_active = true := by
    rw [invuln_step_shield_active]
    exact h
  rw [h1, shield_step_snd, if_pos hsa]

theorem update_fst_shield_active (sinDeg : ℚ → ℚ) (s : AircraftState) (w : WeaponState)
    (dt : ℚ) :
    (Aircraft.update sinDeg s w dt).1.shield_active =
      (Aircraft.shield_step (Aircraft.invuln_step s dt) w dt).1.shield_active := by
  simp only [Aircraft.update]
  split_ifs with hog
  · rw [fuel_step_shield_active, update_ground_physics_shield_active]
  · rw [fuel_step_shield_active, update_air_physics_shield_active]

theorem projectiles_step_shield_energy (atan2Deg : ℚ → ℚ → ℚ) (cosDeg sinDeg : ℚ → ℚ)
    (w : WeaponState) (dt : ℚ) :
    (WeaponSystem.projectiles_step atan2Deg cosDeg sinDeg w dt).shield_energy =
      w.shield_energy := rfl

theorem tick_cooldowns_shield_energy (w : WeaponState) (dt : ℚ) :
    (WeaponSystem.tick_cooldowns w dt).shield_energy = w.shield_energy := rfl

theorem charge_step_shield_energy (w : WeaponState) (dt : ℚ)
    (h : w.shield_energy < w.max_shield_energy) :
    (WeaponSystem.charge_step w dt).shield_energy =
      min w.max_shield_energy (w.shield_energy + 3 * dt) := by
  simp only [WeaponSystem.charge_step]
  split_ifs <;> simp_all

theorem weapon_update_shield_regen (atan2Deg : ℚ → ℚ → ℚ) (cosDeg sinDeg : ℚ → ℚ)
    (w : WeaponState) (dt : ℚ) (h : w.shield_energy < w.max_shield_energy) :
    (WeaponSystem.update atan2Deg cosDeg sinDeg w dt).shield_energy =
      min w.max_shield_energy (w.shield_energy + 3 * dt) := by
  show (WeaponSystem.projectiles_step atan2Deg cosDeg sinDeg
      (WeaponSystem.charge_step (WeaponSystem.tick_cooldowns w dt) dt) dt).shield_energy = _
  rw [projectiles_step_shield_energy,
    charge_step_shield_energy (WeaponSystem.tick_cooldowns w dt) dt (by exact h)]
  rfl

/-- Counterexample to claim C9 as stated: shield-energy regeneration is
not restricted to ticks on which the shield is not draining.  Over one
full combat tick (aircraft update, then weapon-system update) with the
shield active throughout and 50 energy in the pool, the pool ends at 50:
the 3 per second drain was offset by 3 per second regeneration applied
while the shield was active; under the claimed behaviour it would end at
47. -/
theorem c9_counterexample :
    ((combat_tick (fun _ => 0) (fun _ => 0) (fun _ _ => 0)
        { Aircraft.init with shield_active := true, shield_duration := 5 }
        WeaponSystem.init 1).1.shield_active = true) ∧
    ((combat_tick (fun _ => 0) (fun _ => 0) (fun _ _ => 0)
        { Aircraft.init with shield_active := true, shield_duration := 5 }
        WeaponSystem.init 1).2.shield_energy = 50) ∧
    WeaponSystem.init.shield_energy = 50 := by
  refine ⟨?_, ?_, rfl⟩ <;>
    norm_num [combat_tick, Aircraft.update, Aircraft.invuln_step, Aircraft.shield_step,
      Aircraft.fuel_step, Aircraft.update_ground_physics, Aircraft.ground_kinematics,
      Aircraft.init, WeaponSystem.init, WeaponSystem.update, WeaponSystem.tick_cooldowns,
      WeaponSystem.charge_step, WeaponSystem.projectiles_step, Aircraft.drag,
      Aircraft.max_speed, MIN_TAKEOFF_SPEED, min_def, max_def]

/-- Claim C9, amended: while the shield is active the aircraft update
drains the linked pool at 3 per unit time (clamped at 0) and
auto-deactivates the shield exactly when the duration has expired or the
pool has reached 0; independently, the weapon-system update regenerates
the pool at 3 per unit time toward the cap whenever it is below the cap,
regardless of whether the shield is active and draining. -/
theorem c9_shield_drain_and_regen :
    ∀ (sinDeg cosDeg : ℚ → ℚ) (atan2Deg : ℚ → ℚ → ℚ) (s : AircraftState) (w : WeaponState)
      (dt : ℚ),
      (s.shield_active = true →
        (Aircraft.update sinDeg s w dt).2.shield_energy = max 0 (w.shield_energy - 3 * dt) ∧
        ((Aircraft.update sinDeg s w dt).1.shield_active = true ↔
          (0 < s.shield_duration - dt ∧ 0 < max 0 (w.shield_energy - 3 * dt)))) ∧
      (w.shield_energy < w.max_shield_energy →
        (WeaponSystem.update atan2Deg cosDeg sinDeg w dt).shield_energy =
          min w.max_shield_energy (w.shield_energy + 3 * dt)) := by
  intro sinDeg cosDeg atan2Deg s w dt
  constructor
  · intro h
    have hsa : (Aircraft.invuln_step s dt).shield_active = true := by
      rw [invuln_step_shield_active]
      exact h
    refine ⟨update_snd_shield_energy sinDeg s w dt h, ?_⟩
    rw [update_fst_shield_active,
      shield_step_fst_shield_active_iff (Aircraft.invuln_step s dt) w dt hsa,
      invuln_step_shield_duration]
  · intro h
    exact weapon_update_shield_regen atan2Deg cosDeg sinDeg w dt h

/-- Witness for C9 (amended) at the initial aircraft with an active
shield, the initial weapon system and dt = 1. -/
theorem c9_shield_drain_and_regen_witness :
    (Aircraft.update (fun _ => 0)
        { Aircraft.init with shield_active := true, shield_duration := 5 }
        WeaponSystem.init 1).2.shield_energy =
      max 0 (WeaponSystem.init.shield_energy - 3 * 1) ∧
    (WeaponSystem.update (fun _ _ => 0) (fun _ => 0) (fun _ => 0)
        WeaponSystem.init 1).shield_energy =
      min WeaponSystem.init.max_shield_energy (WeaponSystem.init.shield_energy + 3 * 1) :=
  ⟨((c9_shield_drain_and_regen (fun _ => 0) (fun _ => 0) (fun _ _ => 0)
      { Aircraft.init with shield_active := true, shield_duration := 5 }
      WeaponSystem.init 1).1 rfl).1,
   (c9_shield_drain_and_regen (fun _ => 0) (fun _ => 0) (fun _ _ => 0)
      { Aircraft.init with shield_active := true, shield_duration := 5 }
      WeaponSystem.init 1).2 (by norm_num [WeaponSystem.init])⟩

/-- Claim C10: Boss.take_damage rejects damage solely when the
phase-transition timer is positive; a fresh boss starts with timer 0 and
entered = false, and the entry-glide branch of Boss.update never touches
the timer, the phase or the health, so a boss with
phase_transition_timer ≤ 0 takes full (unclamped) damage — and can be
destroyed — even during its scripted entry glide, before `entered`
becomes true. -/
theorem c10_boss_damageable_during_entry :
    ∀ (sinR : ℚ → ℚ) (attack : ℚ → Boss → Vec2 → ℚ × List EnemyProjectile)
      (position player_pos : Vec2) (t : BossType) (b : Boss) (amount dt : ℚ),
      ((Boss.init position t).phase_transition_timer = 0 ∧
        (Boss.init position t).entered = false) ∧
      (b.phase_transition_timer ≤ 0 →
        (Boss.take_damage b amount).1.health = b.health - amount ∧
        ((Boss.take_damage b amount).2 = true ↔ b.health - amount ≤ 0) ∧
        (b.health - amount ≤ 0 → (Boss.take_damage b amount).1.active = false)) ∧
      (b.active = true → b.entered = false →
        (Boss.update sinR attack b dt player_pos).1.phase_transition_timer =
          b.phase_transition_timer ∧
        (Boss.update sinR attack b dt player_pos).1.health = b.health ∧
        (Boss.update sinR attack b dt player_pos).1.phase = b.phase ∧
        (b.entry_target_x < b.position.x →
          (Boss.update sinR attack b dt player_pos).1.entered = false)) := by
  intro sinR attack position player_pos t b amount dt
  refine ⟨⟨rfl, rfl⟩, ?_, ?_⟩
  · intro h
    have h0 : ¬(0 < b.phase_transition_timer) := by linarith
    simp only [Boss.take_damage]
    rw [if_neg h0]
    split_ifs with hd
    · exact ⟨rfl, by simp; linarith, fun _ => rfl⟩
    · refine ⟨rfl, ?_, fun hcon => absurd hcon hd⟩
      simp only [Bool.false_eq_true, false_iff]
      exact hd
  · intro ha he
    simp only [Boss.update, ha, he]
    split_ifs with hx <;> simp_all

/-- Witness for C10: a fresh final destroyer (still gliding in, timer 0)
takes full damage from a 2000 hit and is destroyed. -/
theorem c10_boss_damageable_during_entry_witness :
    (Boss.take_damage (Boss.init ⟨900, 300⟩ .final_destroyer) 2000).1.health =
      (Boss.init ⟨900, 300⟩ .final_destroyer).health - 2000 ∧
    ((Boss.take_damage (Boss.init ⟨900, 300⟩ .final_destroyer) 2000).2 = true ↔
      (Boss.init ⟨900, 300⟩ .final_destroyer).health - 2000 ≤ 0) ∧
    ((Boss.init ⟨900, 300⟩ .final_destroyer).health - 2000 ≤ 0 →
      (Boss.take_damage (Boss.init ⟨900, 300⟩ .final_destroyer) 2000).1.active = false) :=
  (c10_boss_damageable_during_entry (fun _ => 0) (fun _ _ _ => (0, [])) ⟨900, 300⟩ ⟨0, 0⟩
    .final_destroyer (Boss.init ⟨900, 300⟩ .final_destroyer) 2000 1).2.1
    (by norm_num [Boss.init])
